import Mathlib

/-! Status-monitor Terraform provider: API client and resource controller.

A shallow embedding of
`terraform-provider-statusmonitor/internal/provider/api_client.go`,
`terraform-provider-statusmonitor/internal/provider/monitor_resource.go` and
`terraform-provider-statusmonitor/internal/provider/monitor_data_source.go`.

Conventions of the embedding:

* Go `int` is the 64-bit signed integer; values are `Int`, and the places
  where the width is observable (`strconv.Atoi`, decoding a JSON number into
  an `int` field) check the range explicitly.
* A Go `*T` is `Option T`; a `(*Monitor, error)` result is
  `Except String (Option Monitor)`, the string being `err.Error()`.
* Everything the Go code obtains from outside the repository (the network,
  the text level of `encoding/json`, `time.Parse`, `strconv.Quote`) is a
  field of `World`; the code is a function of the world it runs in.
* The Terraform response object is the record `Outcome`: the diagnostics
  appended, what was done to the state, and the client calls issued. The
  resource is taken as configured (its client is not nil) and `State.Set` on a
  record of the schema's shape as succeeding without diagnostics.
* The wording of the errors of `encoding/json` is not reproduced, only that
  decoding fails.
-/

namespace StatusMonitor

/-! ## JSON values -/

/-- A JSON document as `encoding/json` sees it after tokenising. -/
inductive JSON where
  | null
  | bool (b : Bool)
  | num (n : Int)
  | str (s : String)
  | arr (xs : List JSON)
  | obj (kvs : List (String × JSON))

/-! ## api_client.go: data structures -/

/-- Go `map[string]interface{}`; `none` is the nil map. -/
abbrev Metadata := Option (List (String × JSON))

/-- Go `time.Time`, as the instant in nanoseconds. -/
abbrev Time := Int

/-- The struct `Monitor`. -/
structure Monitor where
  ID : Int
  Name : String
  DisplayName : String
  Description : Option String
  URL : Option String
  MonitorType : String
  CheckInterval : Int
  Timeout : Int
  IsActive : Bool
  Metadata : Metadata
  CreatedAt : Option Time
  UpdatedAt : Option Time

/-- The struct `CreateMonitorRequest`. -/
structure CreateMonitorRequest where
  Name : String
  DisplayName : String
  Description : Option String
  URL : Option String
  MonitorType : String
  CheckInterval : Int
  Timeout : Int
  IsActive : Bool
  Metadata : Metadata

/-- The struct `UpdateMonitorRequest`. -/
structure UpdateMonitorRequest where
  Name : Option String
  DisplayName : Option String
  Description : Option String
  URL : Option String
  MonitorType : Option String
  CheckInterval : Option Int
  Timeout : Option Int
  IsActive : Option Bool
  Metadata : Metadata

/-- The zero value of `Monitor` (`var result Monitor`). -/
def Monitor.zero : Monitor :=
  { ID := 0, Name := "", DisplayName := "", Description := none, URL := none,
    MonitorType := "", CheckInterval := 0, Timeout := 0, IsActive := false,
    Metadata := none, CreatedAt := none, UpdatedAt := none }

/-- The zero value of `UpdateMonitorRequest` (`UpdateMonitorRequest{}`). -/
def UpdateMonitorRequest.zero : UpdateMonitorRequest :=
  { Name := none, DisplayName := none, Description := none, URL := none,
    MonitorType := none, CheckInterval := none, Timeout := none, IsActive := none,
    Metadata := none }

/-- Modelled from the spec: the struct `APIClient`, whose declaration is not
among the sources. The specification gives the client's configuration as an
endpoint base URL and an API key, both strings; `doRequest` reads them as
`c.Endpoint` and `c.APIKey`. -/
structure APIClient where
  Endpoint : String
  APIKey : String

/-! ## HTTP -/

/-- An `http.Request` as far as `doRequest` determines it. -/
structure Request where
  Method : String
  URL : String
  Header : List (String × String)
  Body : Option String

/-- An `http.Response`: status code and the text its body stream delivers. -/
structure Response where
  StatusCode : Int
  Body : String

/-- Go `http.Header.Set`: replace whatever is stored under the key. -/
def Header.Set (h : List (String × String)) (k v : String) : List (String × String) :=
  h.filter (fun kv => kv.1 != k) ++ [(k, v)]

/-- The outside world of one run: network and library behaviour. -/
structure World where
  /-- Text rendering of `json.Marshal`; fails on values the library cannot encode. -/
  Render : JSON → Except String String
  /-- Text level of `json.Decoder`: from body text to a JSON value. -/
  Parse : String → Except String JSON
  /-- Key folding used by `encoding/json` for case-insensitive field names. -/
  FoldName : String → String
  /-- The RFC 3339 parser behind `time.Time.UnmarshalJSON`. -/
  ParseTime : String → Option Time
  /-- The error of `http.NewRequestWithContext` for a method and URL, if any. -/
  NewRequestErr : String → String → Option String
  /-- The call `client.Do(req)` with its 30 second timeout. -/
  Do : Request → Except String Response
  /-- The function `strconv.Quote`. -/
  Quote : String → String

/-! ## Decimal rendering and parsing of `int` -/

/-- Go `strconv.Itoa`: decimal digits, with a leading minus sign. The `%d` of
the request paths and error messages is rendered with it too; the digit loop
of package fmt is `SprintfD`, and `SprintfD_eq_Itoa` shows the two agree. -/
def Itoa (n : Int) : String :=
  if n < 0 then "-" ++ Nat.repr n.natAbs else Nat.repr n.natAbs

/-- The two errors of package strconv. -/
inductive NumErrKind where
  | ErrSyntax
  | ErrRange
  deriving DecidableEq, Repr

/-- Go `strconv.NumError` as produced by `Atoi`: the input and the cause. -/
structure NumError where
  Num : String
  Err : NumErrKind
  deriving DecidableEq, Repr

/-- The method `(*NumError).Error`. -/
def NumError.Error (w : World) (e : NumError) : String :=
  "strconv.Atoi: parsing " ++ w.Quote e.Num ++ ": " ++
    (match e.Err with
     | .ErrSyntax => "invalid syntax"
     | .ErrRange => "value out of range")

/-- The digit loop of `strconv.ParseUint` in base 10 with 64 bits: a character
that is no digit is a syntax error, an overflow is a range error, whichever
comes first. -/
def parseUintLoop : List Char → Nat → Except NumErrKind Nat
  | [], n => .ok n
  | c :: cs, n =>
    if c.toNat < 48 ∨ 57 < c.toNat then .error .ErrSyntax
    else if n ≥ (2 ^ 64 - 1) / 10 + 1 then .error .ErrRange
    else
      let n1 := n * 10 + (c.toNat - 48)
      if n1 > 2 ^ 64 - 1 then .error .ErrRange
      else parseUintLoop cs n1

/-- Go `strconv.ParseUint(s, 10, 64)` on the characters after the sign. -/
def parseUint (cs : List Char) : Except NumErrKind Nat :=
  match cs with
  | [] => .error .ErrSyntax
  | _ => parseUintLoop cs 0

/-- Go `strconv.Atoi`: an optional sign, then decimal digits, within 64 bits. -/
def Atoi (s : String) : Except NumError Int :=
  match s.toList with
  | [] => .error ⟨s, .ErrSyntax⟩
  | c :: rest =>
    let neg := c == '-'
    let ds := if c == '+' ∨ c == '-' then rest else c :: rest
    match parseUint ds with
    | .error .ErrSyntax => .error ⟨s, .ErrSyntax⟩
    | .error .ErrRange => .error ⟨s, .ErrRange⟩
    | .ok un =>
      if ¬ neg ∧ un ≥ 2 ^ 63 then .error ⟨s, .ErrRange⟩
      else if neg ∧ un > 2 ^ 63 then .error ⟨s, .ErrRange⟩
      else .ok (if neg then -(un : Int) else (un : Int))

/-! ## Struct tags: encoding requests, decoding monitors -/

/-- A pointer field tagged `omitempty`: left out when nil. -/
def omitNil {α : Type} (key : String) (enc : α → JSON) : Option α → List (String × JSON)
  | none => []
  | some a => [(key, enc a)]

/-- The field `Metadata` tagged `omitempty`: left out when the map is nil or empty. -/
def omitEmptyMap (key : String) : Metadata → List (String × JSON)
  | none => []
  | some [] => []
  | some (kv :: kvs) => [(key, .obj (kv :: kvs))]

/-- The JSON object `json.Marshal` builds from a `CreateMonitorRequest`. -/
def CreateMonitorRequest.toJSON (r : CreateMonitorRequest) : JSON :=
  .obj ([("name", .str r.Name), ("display_name", .str r.DisplayName)]
    ++ omitNil "description" JSON.str r.Description
    ++ omitNil "url" JSON.str r.URL
    ++ [("monitor_type", .str r.MonitorType), ("check_interval", .num r.CheckInterval),
        ("timeout", .num r.Timeout), ("is_active", .bool r.IsActive)]
    ++ omitEmptyMap "metadata" r.Metadata)

/-- The JSON object `json.Marshal` builds from an `UpdateMonitorRequest`. -/
def UpdateMonitorRequest.toJSON (r : UpdateMonitorRequest) : JSON :=
  .obj (omitNil "name" JSON.str r.Name
    ++ omitNil "display_name" JSON.str r.DisplayName
    ++ omitNil "description" JSON.str r.Description
    ++ omitNil "url" JSON.str r.URL
    ++ omitNil "monitor_type" JSON.str r.MonitorType
    ++ omitNil "check_interval" JSON.num r.CheckInterval
    ++ omitNil "timeout" JSON.num r.Timeout
    ++ omitNil "is_active" JSON.bool r.IsActive
    ++ omitEmptyMap "metadata" r.Metadata)

/-- The `body interface{}` argument of `doRequest`, when it is not nil. -/
inductive Body where
  | create (r : CreateMonitorRequest)
  | update (r : UpdateMonitorRequest)

/-- The JSON object of a request body. -/
def Body.toJSON : Body → JSON
  | .create r => r.toJSON
  | .update r => r.toJSON

/-- The fields of `Monitor`. -/
inductive Field where
  | ID | Name | DisplayName | Description | URL | MonitorType
  | CheckInterval | Timeout | IsActive | Metadata | CreatedAt | UpdatedAt
  deriving DecidableEq, Repr

/-- The `json:"..."` names of the fields of `Monitor`, in declaration order. -/
def monitorTags : List (String × Field) :=
  [("id", .ID), ("name", .Name), ("display_name", .DisplayName),
   ("description", .Description), ("url", .URL), ("monitor_type", .MonitorType),
   ("check_interval", .CheckInterval), ("timeout", .Timeout), ("is_active", .IsActive),
   ("metadata", .Metadata), ("created_at", .CreatedAt), ("updated_at", .UpdatedAt)]

/-- The field an object key addresses: the exact tag if there is one, otherwise
the first tag equal to it after folding. -/
def fieldFor (w : World) (key : String) : Option Field :=
  match monitorTags.find? (fun t => t.1 == key) with
  | some t => some t.2
  | none => (monitorTags.find? (fun t => w.FoldName t.1 == w.FoldName key)).map (fun t => t.2)

/-- Decoding into a `string` field: null leaves the field as it is. -/
def decodeString (cur : String) : JSON → Except String String
  | .null => .ok cur
  | .str s => .ok s
  | _ => .error "json: cannot unmarshal value into field of type string"

/-- Decoding into an `int` field: null leaves the field as it is, a number
must fit in 64 bits. -/
def decodeInt (cur : Int) : JSON → Except String Int
  | .null => .ok cur
  | .num n =>
    if -(2 ^ 63) ≤ n ∧ n < 2 ^ 63 then .ok n
    else .error "json: cannot unmarshal number into field of type int"
  | _ => .error "json: cannot unmarshal value into field of type int"

/-- Decoding into a `bool` field: null leaves the field as it is. -/
def decodeBool (cur : Bool) : JSON → Except String Bool
  | .null => .ok cur
  | .bool b => .ok b
  | _ => .error "json: cannot unmarshal value into field of type bool"

/-- Decoding into a `*string` field: null sets the nil pointer. -/
def decodeStringPtr : JSON → Except String (Option String)
  | .null => .ok none
  | .str s => .ok (some s)
  | _ => .error "json: cannot unmarshal value into field of type string"

/-- Assignment `m[k] = v` on a map kept as an association list. -/
def mapInsert (m : List (String × JSON)) (k : String) (v : JSON) : List (String × JSON) :=
  m.filter (fun kv => kv.1 != k) ++ [(k, v)]

/-- Decoding into the `map[string]interface{}` field: null sets the nil map,
an object is stored member by member into the map already there. -/
def decodeMetadata (cur : Metadata) : JSON → Except String Metadata
  | .null => .ok none
  | .obj kvs => .ok (some (kvs.foldl (fun m kv => mapInsert m kv.1 kv.2) (cur.getD [])))
  | _ => .error "json: cannot unmarshal value into field of type map[string]interface \x7b\x7d"

/-- Decoding into a `*time.Time` field: null sets the nil pointer, a string
goes through the RFC 3339 parser. -/
def decodeTimePtr (w : World) : JSON → Except String (Option Time)
  | .null => .ok none
  | .str s =>
    match w.ParseTime s with
    | some t => .ok (some t)
    | none => .error "parsing time: cannot parse timestamp"
  | _ => .error "Time.UnmarshalJSON: input is not a JSON string"

/-- Storing one decoded member into the field it addresses. -/
def setField (w : World) (m : Monitor) (f : Field) (v : JSON) : Except String Monitor :=
  match f with
  | .ID => (decodeInt m.ID v).map (fun x => { m with ID := x })
  | .Name => (decodeString m.Name v).map (fun x => { m with Name := x })
  | .DisplayName => (decodeString m.DisplayName v).map (fun x => { m with DisplayName := x })
  | .Description => (decodeStringPtr v).map (fun x => { m with Description := x })
  | .URL => (decodeStringPtr v).map (fun x => { m with URL := x })
  | .MonitorType => (decodeString m.MonitorType v).map (fun x => { m with MonitorType := x })
  | .CheckInterval => (decodeInt m.CheckInterval v).map (fun x => { m with CheckInterval := x })
  | .Timeout => (decodeInt m.Timeout v).map (fun x => { m with Timeout := x })
  | .IsActive => (decodeBool m.IsActive v).map (fun x => { m with IsActive := x })
  | .Metadata => (decodeMetadata m.Metadata v).map (fun x => { m with Metadata := x })
  | .CreatedAt => (decodeTimePtr w v).map (fun x => { m with CreatedAt := x })
  | .UpdatedAt => (decodeTimePtr w v).map (fun x => { m with UpdatedAt := x })

/-- The members of an object decoded in order into a `Monitor`; a key that
addresses no field is skipped, a later member overwrites an earlier one. -/
def decodeMembers (w : World) : List (String × JSON) → Monitor → Except String Monitor
  | [], m => .ok m
  | (k, v) :: rest, m =>
    match fieldFor w k with
    | none => decodeMembers w rest m
    | some f =>
      match setField w m f v with
      | .error e => .error e
      | .ok m1 => decodeMembers w rest m1

/-- Decoding a JSON value into a zero `Monitor`: null leaves it zero, an
object fills it, anything else is a type error. -/
def Monitor.fromJSON (w : World) : JSON → Except String Monitor
  | .null => .ok Monitor.zero
  | .obj kvs => decodeMembers w kvs Monitor.zero
  | _ => .error "json: cannot unmarshal value into Go value of type provider.Monitor"

/-- The elements of an array decoded one by one. -/
def decodeElements (w : World) : List JSON → Except String (List Monitor)
  | [] => .ok []
  | x :: xs =>
    match Monitor.fromJSON w x with
    | .error e => .error e
    | .ok m =>
      match decodeElements w xs with
      | .error e => .error e
      | .ok ms => .ok (m :: ms)

/-- Decoding a JSON value into a nil `[]Monitor`. -/
def monitorsFromJSON (w : World) : JSON → Except String (List Monitor)
  | .null => .ok []
  | .arr xs => decodeElements w xs
  | _ => .error "json: cannot unmarshal value into Go value of type []provider.Monitor"

/-- The call `json.NewDecoder(resp.Body).Decode(&result)` for a `Monitor`. -/
def decodeMonitor (w : World) (body : String) : Except String Monitor :=
  match w.Parse body with
  | .error e => .error e
  | .ok v => Monitor.fromJSON w v

/-- The call `json.NewDecoder(resp.Body).Decode(&monitors)` for a `[]Monitor`. -/
def decodeMonitors (w : World) (body : String) : Except String (List Monitor) :=
  match w.Parse body with
  | .error e => .error e
  | .ok v => monitorsFromJSON w v

/-! ## api_client.go: operations -/

/-- Lines 57 to 74 of `doRequest`: marshal the body, build the request, set
the headers. -/
def buildRequest (w : World) (c : APIClient) (method path : String) (body : Option Body) :
    Except String Request :=
  let marshalled : Except String (Option String) :=
    match body with
    | none => .ok none
    | some b =>
      match w.Render b.toJSON with
      | .error err => .error ("failed to marshal request body: " ++ err)
      | .ok jsonBody => .ok (some jsonBody)
  match marshalled with
  | .error e => .error e
  | .ok bodyReader =>
    match w.NewRequestErr method (c.Endpoint ++ path) with
    | some err => .error ("failed to create request: " ++ err)
    | none =>
      let req : Request :=
        { Method := method, URL := c.Endpoint ++ path, Header := [], Body := bodyReader }
      let req := { req with Header := Header.Set req.Header "Content-Type" "application/json" }
      let req :=
        if c.APIKey != "" then
          { req with Header := Header.Set req.Header "Authorization" ("Bearer " ++ c.APIKey) }
        else req
      .ok req

/-- The method `doRequest`: performs an HTTP request. -/
def doRequest (w : World) (c : APIClient) (method path : String) (body : Option Body) :
    Except String Response :=
  match buildRequest w c method path body with
  | .error e => .error e
  | .ok req =>
    match w.Do req with
    | .error err => .error ("request failed: " ++ err)
    | .ok resp => .ok resp

/-- The method `CreateMonitor`. -/
def CreateMonitor (w : World) (c : APIClient) (monitor : CreateMonitorRequest) :
    Except String Monitor :=
  match doRequest w c "POST" "/status/api/monitors" (some (.create monitor)) with
  | .error err => .error err
  | .ok resp =>
    if resp.StatusCode ≠ 201 then
      .error ("failed to create monitor: " ++ resp.Body ++ " (status " ++ Itoa resp.StatusCode ++ ")")
    else
      match decodeMonitor w resp.Body with
      | .error err => .error ("failed to decode response: " ++ err)
      | .ok result => .ok result

/-- The method `GetMonitor`; `ok none` is the result `nil, nil`. -/
def GetMonitor (w : World) (c : APIClient) (id : Int) : Except String (Option Monitor) :=
  match doRequest w c "GET" ("/status/api/monitors/" ++ Itoa id) none with
  | .error err => .error err
  | .ok resp =>
    if resp.StatusCode = 404 then .ok none
    else if resp.StatusCode ≠ 200 then
      .error ("failed to get monitor: " ++ resp.Body ++ " (status " ++ Itoa resp.StatusCode ++ ")")
    else
      match decodeMonitor w resp.Body with
      | .error err => .error ("failed to decode response: " ++ err)
      | .ok result => .ok (some result)

/-- The loop `for _, m := range monitors` of `GetMonitorByName`. -/
def findByName (name : String) : List Monitor → Option Monitor
  | [] => none
  | m :: rest => if m.Name = name then some m else findByName name rest

/-- The method `GetMonitorByName`; `ok none` is the result `nil, nil`. -/
def GetMonitorByName (w : World) (c : APIClient) (name : String) :
    Except String (Option Monitor) :=
  match doRequest w c "GET" "/status/api/monitors" none with
  | .error err => .error err
  | .ok resp =>
    if resp.StatusCode ≠ 200 then
      .error ("failed to list monitors: " ++ resp.Body ++ " (status " ++ Itoa resp.StatusCode ++ ")")
    else
      match decodeMonitors w resp.Body with
      | .error err => .error ("failed to decode response: " ++ err)
      | .ok monitors => .ok (findByName name monitors)

/-- The method `UpdateMonitor`. -/
def UpdateMonitor (w : World) (c : APIClient) (id : Int) (monitor : UpdateMonitorRequest) :
    Except String Monitor :=
  match doRequest w c "PUT" ("/status/api/monitors/" ++ Itoa id) (some (.update monitor)) with
  | .error err => .error err
  | .ok resp =>
    if resp.StatusCode ≠ 200 then
      .error ("failed to update monitor: " ++ resp.Body ++ " (status " ++ Itoa resp.StatusCode ++ ")")
    else
      match decodeMonitor w resp.Body with
      | .error err => .error ("failed to decode response: " ++ err)
      | .ok result => .ok result

/-- The method `DeleteMonitor`; `ok ()` is the nil error. -/
def DeleteMonitor (w : World) (c : APIClient) (id : Int) : Except String Unit :=
  match doRequest w c "DELETE" ("/status/api/monitors/" ++ Itoa id) none with
  | .error err => .error err
  | .ok resp =>
    if resp.StatusCode ≠ 204 then
      .error ("failed to delete monitor: " ++ resp.Body ++ " (status " ++ Itoa resp.StatusCode ++ ")")
    else .ok ()

/-! ## Terraform framework values -/

/-- A framework attribute value (`types.String`, `types.Int64`, `types.Bool`):
null, unknown, or a known value. -/
inductive TFValue (α : Type) where
  | null
  | unknown
  | value (a : α)
  deriving DecidableEq, Repr

/-- The type `types.String`. -/
abbrev TFString := TFValue String

/-- The type `types.Int64`. -/
abbrev TFInt64 := TFValue Int

/-- The type `types.Bool`. -/
abbrev TFBool := TFValue Bool

/-- The method `IsNull`. -/
def TFValue.IsNull {α : Type} : TFValue α → Bool
  | .null => true
  | _ => false

/-- The method `ValueString`: the known value, the empty string otherwise. -/
def TFValue.ValueString : TFString → String
  | .value s => s
  | _ => ""

/-- The method `ValueInt64`: the known value, zero otherwise. -/
def TFValue.ValueInt64 : TFInt64 → Int
  | .value n => n
  | _ => 0

/-- The method `ValueBool`: the known value, false otherwise. -/
def TFValue.ValueBool : TFBool → Bool
  | .value b => b
  | _ => false

/-- The struct `MonitorResourceModel`. -/
structure MonitorResourceModel where
  Id : TFString
  Name : TFString
  DisplayName : TFString
  Description : TFString
  Url : TFString
  MonitorType : TFString
  CheckInterval : TFInt64
  Timeout : TFInt64
  IsActive : TFBool
  deriving DecidableEq, Repr

/-- Severity of a diagnostic. -/
inductive Severity where
  | Error
  | Warning
  deriving DecidableEq, Repr

/-- One entry of `resp.Diagnostics`. -/
structure Diagnostic where
  Severity : Severity
  Summary : String
  Detail : String
  deriving DecidableEq, Repr

/-- The method `Diagnostics.Append`: each diagnostic is added at the end unless
the collection already holds an equal one. -/
def Append (ds new : List Diagnostic) : List Diagnostic :=
  new.foldl (fun acc d => if d ∈ acc then acc else acc ++ [d]) ds

/-- The method `Diagnostics.AddError`: appends an error diagnostic. -/
def AddError (ds : List Diagnostic) (summary detail : String) : List Diagnostic :=
  Append ds [{ Severity := .Error, Summary := summary, Detail := detail }]

/-- The method `Diagnostics.HasError`. -/
def HasError (ds : List Diagnostic) : Bool :=
  ds.any (fun d => d.Severity == .Error)

/-- What `req.Plan.Get(ctx, &data)` or `req.State.Get(ctx, &data)` delivers:
the diagnostics it returns and the record it fills in. -/
structure Source where
  Diags : List Diagnostic
  Data : MonitorResourceModel

/-- What an operation did to `resp.State`. -/
inductive StateOp where
  | untouched
  | removed
  | set (data : MonitorResourceModel)
  deriving DecidableEq, Repr

/-- A call of a client method, with its arguments. -/
inductive ClientCall where
  | CreateMonitor (monitor : CreateMonitorRequest)
  | GetMonitor (id : Int)
  | UpdateMonitor (id : Int) (monitor : UpdateMonitorRequest)
  | DeleteMonitor (id : Int)

/-- The response object of a resource operation when it returns. -/
structure Outcome where
  Diagnostics : List Diagnostic
  State : StateOp
  Calls : List ClientCall

/-! ## monitor_resource.go: operations -/

/-- The conversion of lines 138 to 155 of `Create`: model to API request. -/
def buildCreateRequest (data : MonitorResourceModel) : CreateMonitorRequest :=
  let createReq : CreateMonitorRequest :=
    { Name := data.Name.ValueString
      DisplayName := data.DisplayName.ValueString
      Description := none
      URL := none
      MonitorType := data.MonitorType.ValueString
      CheckInterval := data.CheckInterval.ValueInt64
      Timeout := data.Timeout.ValueInt64
      IsActive := data.IsActive.ValueBool
      Metadata := none }
  let createReq :=
    if !data.Description.IsNull then
      { createReq with Description := some data.Description.ValueString }
    else createReq
  let createReq :=
    if !data.Url.IsNull then { createReq with URL := some data.Url.ValueString }
    else createReq
  createReq

/-- The method `MonitorResource.Create`. -/
def MonitorResource.Create (w : World) (client : APIClient) (plan : Source) : Outcome :=
  let diags := Append [] plan.Diags
  if HasError diags then { Diagnostics := diags, State := .untouched, Calls := [] }
  else
    let data := plan.Data
    let createReq := buildCreateRequest data
    match CreateMonitor w client createReq with
    | .error err =>
      { Diagnostics := AddError diags "Error Creating Monitor"
          ("Could not create monitor, unexpected error: " ++ err)
        State := .untouched
        Calls := [.CreateMonitor createReq] }
    | .ok monitor =>
      let data := { data with Id := .value (Itoa monitor.ID) }
      let data := { data with Name := .value monitor.Name }
      let data := { data with DisplayName := .value monitor.DisplayName }
      let data := { data with MonitorType := .value monitor.MonitorType }
      let data := { data with CheckInterval := .value monitor.CheckInterval }
      let data := { data with Timeout := .value monitor.Timeout }
      let data := { data with IsActive := .value monitor.IsActive }
      let data :=
        match monitor.Description with
        | some d => { data with Description := .value d }
        | none => { data with Description := .null }
      let data :=
        match monitor.URL with
        | some u => { data with Url := .value u }
        | none => { data with Url := .null }
      { Diagnostics := diags, State := .set data, Calls := [.CreateMonitor createReq] }

/-- The method `MonitorResource.Read`. -/
def MonitorResource.Read (w : World) (client : APIClient) (state : Source) : Outcome :=
  let diags := Append [] state.Diags
  if HasError diags then { Diagnostics := diags, State := .untouched, Calls := [] }
  else
    let data := state.Data
    match Atoi data.Id.ValueString with
    | .error err =>
      { Diagnostics := AddError diags "Invalid Monitor ID"
          ("Could not parse monitor ID: " ++ err.Error w)
        State := .untouched
        Calls := [] }
    | .ok id =>
      match GetMonitor w client id with
      | .error err =>
        { Diagnostics := AddError diags "Error Reading Monitor"
            ("Could not read monitor ID " ++ data.Id.ValueString ++ ": " ++ err)
          State := .untouched
          Calls := [.GetMonitor id] }
      | .ok none =>
        { Diagnostics := diags, State := .removed, Calls := [.GetMonitor id] }
      | .ok (some monitor) =>
        let data := { data with Id := .value (Itoa monitor.ID) }
        let data := { data with Name := .value monitor.Name }
        let data := { data with DisplayName := .value monitor.DisplayName }
        let data := { data with MonitorType := .value monitor.MonitorType }
        let data := { data with CheckInterval := .value monitor.CheckInterval }
        let data := { data with Timeout := .value monitor.Timeout }
        let data := { data with IsActive := .value monitor.IsActive }
        let data :=
          match monitor.Description with
          | some d => { data with Description := .value d }
          | none => { data with Description := .null }
        let data :=
          match monitor.URL with
          | some u => { data with Url := .value u }
          | none => { data with Url := .null }
        { Diagnostics := diags, State := .set data, Calls := [.GetMonitor id] }

/-- The conversion of lines 280 to 309 of `Update`: model to API request. -/
def buildUpdateRequest (data : MonitorResourceModel) : UpdateMonitorRequest :=
  let updateReq := UpdateMonitorRequest.zero
  let updateReq := { updateReq with Name := some data.Name.ValueString }
  let updateReq := { updateReq with DisplayName := some data.DisplayName.ValueString }
  let updateReq := { updateReq with MonitorType := some data.MonitorType.ValueString }
  let updateReq := { updateReq with CheckInterval := some data.CheckInterval.ValueInt64 }
  let updateReq := { updateReq with Timeout := some data.Timeout.ValueInt64 }
  let updateReq := { updateReq with IsActive := some data.IsActive.ValueBool }
  let updateReq :=
    if !data.Description.IsNull then
      { updateReq with Description := some data.Description.ValueString }
    else updateReq
  let updateReq :=
    if !data.Url.IsNull then { updateReq with URL := some data.Url.ValueString }
    else updateReq
  updateReq

/-- The method `MonitorResource.Update`. -/
def MonitorResource.Update (w : World) (client : APIClient) (plan : Source) : Outcome :=
  let diags := Append [] plan.Diags
  if HasError diags then { Diagnostics := diags, State := .untouched, Calls := [] }
  else
    let data := plan.Data
    match Atoi data.Id.ValueString with
    | .error err =>
      { Diagnostics := AddError diags "Invalid Monitor ID"
          ("Could not parse monitor ID: " ++ err.Error w)
        State := .untouched
        Calls := [] }
    | .ok id =>
      let updateReq := buildUpdateRequest data
      match UpdateMonitor w client id updateReq with
      | .error err =>
        { Diagnostics := AddError diags "Error Updating Monitor"
            ("Could not update monitor ID " ++ data.Id.ValueString ++ ": " ++ err)
          State := .untouched
          Calls := [.UpdateMonitor id updateReq] }
      | .ok monitor =>
        let data := { data with Id := .value (Itoa monitor.ID) }
        let data := { data with Name := .value monitor.Name }
        let data := { data with DisplayName := .value monitor.DisplayName }
        let data := { data with MonitorType := .value monitor.MonitorType }
        let data := { data with CheckInterval := .value monitor.CheckInterval }
        let data := { data with Timeout := .value monitor.Timeout }
        let data := { data with IsActive := .value monitor.IsActive }
        let data :=
          match monitor.Description with
          | some d => { data with Description := .value d }
          | none => { data with Description := .null }
        let data :=
          match monitor.URL with
          | some u => { data with Url := .value u }
          | none => { data with Url := .null }
        { Diagnostics := diags, State := .set data, Calls := [.UpdateMonitor id updateReq] }

/-- The method `MonitorResource.Delete`. -/
def MonitorResource.Delete (w : World) (client : APIClient) (state : Source) : Outcome :=
  let diags := Append [] state.Diags
  if HasError diags then { Diagnostics := diags, State := .untouched, Calls := [] }
  else
    let data := state.Data
    match Atoi data.Id.ValueString with
    | .error err =>
      { Diagnostics := AddError diags "Invalid Monitor ID"
          ("Could not parse monitor ID: " ++ err.Error w)
        State := .untouched
        Calls := [] }
    | .ok id =>
      match DeleteMonitor w client id with
      | .error err =>
        { Diagnostics := AddError diags "Error Deleting Monitor"
            ("Could not delete monitor ID " ++ data.Id.ValueString ++ ": " ++ err)
          State := .untouched
          Calls := [.DeleteMonitor id] }
      | .ok () => { Diagnostics := diags, State := .untouched, Calls := [.DeleteMonitor id] }

/-! ## monitor_data_source.go -/

/-- The digit loop of `fmtInteger` in package fmt for base 10: the digits of
`u` are written into the buffer from its end, one division by ten a round.
The first argument bounds the rounds; `u + 1` of them are never used up. -/
def fmtIntegerLoop : Nat → Nat → List Char → List Char
  | 0, u, buf => Char.ofNat (48 + u) :: buf
  | fuel + 1, u, buf =>
    if u ≥ 10 then
      let next := u / 10
      fmtIntegerLoop fuel next (Char.ofNat (48 + (u - next * 10)) :: buf)
    else Char.ofNat (48 + u) :: buf

/-- Go `fmt.Sprintf("%d", n)`: the digits of the magnitude, then the minus
sign in front of them when `n` is negative. -/
def SprintfD (n : Int) : String :=
  let digits := fmtIntegerLoop (n.natAbs + 1) n.natAbs []
  String.mk (if n < 0 then '-' :: digits else digits)

/-- The struct `MonitorDataSourceModel`. -/
structure MonitorDataSourceModel where
  Id : TFString
  Name : TFString
  DisplayName : TFString
  Description : TFString
  Url : TFString
  MonitorType : TFString
  CheckInterval : TFInt64
  Timeout : TFInt64
  IsActive : TFBool
  deriving DecidableEq, Repr

/-- What `req.Config.Get(ctx, &data)` delivers to the data source: the
diagnostics it returns and the record it fills in. -/
structure ConfigSource where
  Diags : List Diagnostic
  Data : MonitorDataSourceModel

/-- The response object of the data source when `Read` returns: the
diagnostics, the record given to `State.Set` if it was called, and the names
`GetMonitorByName` was called with. -/
structure DataSourceOutcome where
  Diagnostics : List Diagnostic
  State : Option MonitorDataSourceModel
  Lookups : List String

/-- The method `MonitorDataSource.Read`. -/
def MonitorDataSource.Read (w : World) (client : APIClient) (config : ConfigSource) :
    DataSourceOutcome :=
  let diags := Append [] config.Diags
  if HasError diags then { Diagnostics := diags, State := none, Lookups := [] }
  else
    let data := config.Data
    match GetMonitorByName w client data.Name.ValueString with
    | .error err =>
      { Diagnostics := AddError diags "Error Reading Monitor"
          ("Could not read monitor by name " ++ data.Name.ValueString ++ ": " ++ err)
        State := none
        Lookups := [data.Name.ValueString] }
    | .ok none =>
      { Diagnostics := AddError diags "Monitor Not Found"
          ("No monitor found with name: " ++ data.Name.ValueString)
        State := none
        Lookups := [data.Name.ValueString] }
    | .ok (some monitor) =>
      let lookups := [data.Name.ValueString]
      let data := { data with Id := .value (SprintfD monitor.ID) }
      let data := { data with Name := .value monitor.Name }
      let data := { data with DisplayName := .value monitor.DisplayName }
      let data := { data with MonitorType := .value monitor.MonitorType }
      let data := { data with CheckInterval := .value monitor.CheckInterval }
      let data := { data with Timeout := .value monitor.Timeout }
      let data := { data with IsActive := .value monitor.IsActive }
      let data :=
        match monitor.Description with
        | some d => { data with Description := .value d }
        | none => { data with Description := .null }
      let data :=
        match monitor.URL with
        | some u => { data with Url := .value u }
        | none => { data with Url := .null }
      { Diagnostics := diags, State := some data, Lookups := lookups }

/-! ## Reading headers -/

/-- Go `http.Header.Values`: everything stored under a key, in order. -/
def Header.Values (h : List (String × String)) (k : String) : List String :=
  (h.filter (fun kv => kv.1 == k)).map (fun kv => kv.2)

/-! ## Worlds used to evaluate the code on concrete inputs -/

/-- A world whose server answers every request with the given status and body
text, and whose JSON text level reads every body as the given value. -/
def constWorld (status : Int) (body : String) (doc : JSON) : World :=
  { Render := fun _ => .ok "", Parse := fun _ => .ok doc, FoldName := fun s => s,
    ParseTime := fun _ => none, NewRequestErr := fun _ _ => none,
    Do := fun _ => .ok { StatusCode := status, Body := body },
    Quote := fun s => "\"" ++ s ++ "\"" }

/-- A world in which the network is down: every `client.Do` fails. -/
def downWorld : World :=
  { Render := fun _ => .ok "", Parse := fun _ => .ok .null, FoldName := fun s => s,
    ParseTime := fun _ => none, NewRequestErr := fun _ _ => none,
    Do := fun _ => .error "dial tcp: connection refused",
    Quote := fun s => "\"" ++ s ++ "\"" }

/-- A client configured with the default endpoint and no key. -/
def localClient : APIClient := { Endpoint := "http://localhost:8000", APIKey := "" }

/-! ## Values used to evaluate the code on concrete inputs -/

/-- A monitor with the given ID and name, every other field zero. -/
def mon (id : Int) (name : String) : Monitor :=
  { Monitor.zero with ID := id, Name := name }

/-- A listing of three monitors, two of them sharing a name. -/
def listing : JSON :=
  .arr [.obj [("id", .num 1), ("name", .str "svc-a")],
        .obj [("id", .num 2), ("name", .str "svc-b")],
        .obj [("id", .num 3), ("name", .str "svc-b")]]

/-- A create request for the monitor `svc-a` of the scenario in the specification. -/
def sampleCreate : CreateMonitorRequest :=
  { Name := "svc-a", DisplayName := "Service A", Description := none, URL := none,
    MonitorType := "http", CheckInterval := 60, Timeout := 30, IsActive := true,
    Metadata := none }

/-- Containment of one text in another, as a contiguous run of characters. -/
def Contains (msg part : String) : Prop := part.toList <:+: msg.toList

/-- The range of a Go `int`. -/
def IsGoInt (n : Int) : Prop := -(2 ^ 63) ≤ n ∧ n < 2 ^ 63

/-- A `*string` of a fetched monitor as the state attribute holding it: the
value when there is one, null for the nil pointer. -/
def optString : Option String → TFString
  | some s => .value s
  | none => .null

/-- The state record whose nine fields are all taken from a monitor; used to
state what the controller writes. -/
def recordOf (m : Monitor) : MonitorResourceModel :=
  { Id := .value (Itoa m.ID), Name := .value m.Name, DisplayName := .value m.DisplayName,
    Description := optString m.Description, Url := optString m.URL,
    MonitorType := .value m.MonitorType, CheckInterval := .value m.CheckInterval,
    Timeout := .value m.Timeout, IsActive := .value m.IsActive }

/-- A plan for a new monitor: description unset, URL set to the empty string. -/
def samplePlan : Source :=
  { Diags := []
    Data :=
      { Id := .unknown, Name := .value "svc-a", DisplayName := .value "Service A",
        Description := .null, Url := .value "", MonitorType := .value "http",
        CheckInterval := .value 60, Timeout := .value 30, IsActive := .value true } }

/-- A stored record of the monitor with ID 7: description unset, URL empty. -/
def sampleState : Source :=
  { Diags := []
    Data :=
      { Id := .value "7", Name := .value "svc-a", DisplayName := .value "Service A",
        Description := .null, Url := .value "", MonitorType := .value "http",
        CheckInterval := .value 60, Timeout := .value 30, IsActive := .value true } }

/-- A stored record whose ID is not a number. -/
def brokenState : Source :=
  { sampleState with Data := { sampleState.Data with Id := .value "seven" } }

/-- The monitor with ID 7 as the server holds it after an edit out of band. -/
def fetched : Monitor :=
  { Monitor.zero with ID := 7, Name := "svc-a", DisplayName := "Renamed", Description := some "",
                      MonitorType := "tcp", CheckInterval := 15, Timeout := 5 }

/-- The JSON document of `fetched`. -/
def fetchedDoc : JSON :=
  .obj [("id", .num 7), ("name", .str "svc-a"), ("display_name", .str "Renamed"),
        ("description", .str ""), ("monitor_type", .str "tcp"), ("check_interval", .num 15),
        ("timeout", .num 5), ("is_active", .bool false)]

/-- A client configured with an API key. -/
def keyedClient : APIClient := { Endpoint := "http://localhost:8000", APIKey := "s3cret" }

/-- A data source configuration asking for the monitor named `svc-b`. -/
def sampleConfig : ConfigSource :=
  { Diags := []
    Data :=
      { Id := .unknown, Name := .value "svc-b", DisplayName := .unknown,
        Description := .unknown, Url := .unknown, MonitorType := .unknown,
        CheckInterval := .unknown, Timeout := .unknown, IsActive := .unknown } }

/-- A data source configuration asking for the monitor named `svc-a`. -/
def sampleConfigA : ConfigSource :=
  { sampleConfig with Data := { sampleConfig.Data with Name := .value "svc-a" } }

/-! ## Lemmas on the client -/

theorem findByName_eq_none (name : String) (L : List Monitor) :
    findByName name L = none ↔ ∀ x ∈ L, x.Name ≠ name := by
  induction L with
  | nil => simp [findByName]
  | cons m rest ih =>
    by_cases h : m.Name = name
    · simp [findByName, h]
    · simp [findByName, h, ih]

theorem findByName_eq_some (name : String) (L : List Monitor) (m : Monitor) :
    findByName name L = some m ↔
      ∃ pre post, L = pre ++ m :: post ∧ m.Name = name ∧ ∀ x ∈ pre, x.Name ≠ name := by
  induction L with
  | nil => simp [findByName]
  | cons a rest ih =>
    by_cases h : a.Name = name
    · simp only [findByName, h, if_true, Option.some.injEq]
      constructor
      · intro e
        subst e
        exact ⟨[], rest, rfl, h, by simp⟩
      · rintro ⟨pre, post, hL, hm, hpre⟩
        cases pre with
        | nil =>
          simp only [List.nil_append, List.cons.injEq] at hL
          exact hL.1
        | cons b pre1 =>
          simp only [List.cons_append, List.cons.injEq] at hL
          exact absurd (hL.1 ▸ h) (hpre b (by simp))
    · simp only [findByName, h, if_false, ih]
      constructor
      · rintro ⟨pre, post, hL, hm, hpre⟩
        refine ⟨a :: pre, post, by simp [hL], hm, ?_⟩
        intro x hx
        rcases List.mem_cons.mp hx with rfl | hx
        · exact h
        · exact hpre x hx
      · rintro ⟨pre, post, hL, hm, hpre⟩
        cases pre with
        | nil =>
          simp only [List.nil_append, List.cons.injEq] at hL
          exact absurd (hL.1 ▸ hm) h
        | cons b pre1 =>
          simp only [List.cons_append, List.cons.injEq] at hL
          exact ⟨pre1, post, hL.2, hm, fun x hx => hpre x (by simp [hx])⟩

theorem append_ne_of_char (a b x y : String) (k : Nat)
    (ha : k < a.toList.length) (hb : k < b.toList.length)
    (h : a.toList[k]? ≠ b.toList[k]?) : a ++ x ≠ b ++ y := by
  intro e
  have e2 : (a ++ x).toList[k]? = (b ++ y).toList[k]? := by rw [e]
  simp only [String.toList, String.data_append] at e2 ha hb h
  rw [List.getElem?_append_left ha, List.getElem?_append_left hb] at e2
  exact h e2

theorem contains_mid (a b c : String) : Contains (a ++ b ++ c) b := by
  unfold Contains
  simp only [String.toList, String.data_append]
  exact ⟨a.data, c.data, rfl⟩

theorem contains_server_error (what body code : String) :
    Contains (what ++ body ++ " (status " ++ code ++ ")") body ∧
    Contains (what ++ body ++ " (status " ++ code ++ ")") code := by
  constructor
  · have h := contains_mid what body (" (status " ++ code ++ ")")
    simpa only [String.append_assoc] using h
  · exact contains_mid (what ++ body ++ " (status ") code ")"

theorem buildRequest_error_form (w : World) (c : APIClient) (method path : String)
    (body : Option Body) (e : String) (h : buildRequest w c method path body = .error e) :
    (∃ x, e = "failed to marshal request body: " ++ x) ∨
    (∃ x, e = "failed to create request: " ++ x) := by
  unfold buildRequest at h
  cases hn : w.NewRequestErr method (c.Endpoint ++ path) with
  | none =>
    cases body with
    | none => simp [hn] at h
    | some b =>
      cases hr : w.Render b.toJSON with
      | error x =>
        simp [hr] at h
        exact Or.inl ⟨x, h.symm⟩
      | ok t => simp [hn, hr] at h
  | some x =>
    cases body with
    | none =>
      simp [hn] at h
      exact Or.inr ⟨x, h.symm⟩
    | some b =>
      cases hr : w.Render b.toJSON with
      | error y =>
        simp [hr] at h
        exact Or.inl ⟨y, h.symm⟩
      | ok t =>
        simp [hn, hr] at h
        exact Or.inr ⟨x, h.symm⟩

theorem doRequest_error_form (w : World) (c : APIClient) (method path : String)
    (body : Option Body) (e : String) (h : doRequest w c method path body = .error e) :
    (∃ x, e = "failed to marshal request body: " ++ x) ∨
    (∃ x, e = "failed to create request: " ++ x) ∨
    (∃ x, e = "request failed: " ++ x) := by
  unfold doRequest at h
  cases hb : buildRequest w c method path body with
  | error x =>
    simp [hb] at h
    subst h
    rcases buildRequest_error_form w c method path body x hb with h1 | h1
    · exact Or.inl h1
    · exact Or.inr (Or.inl h1)
  | ok req =>
    cases hd : w.Do req with
    | error x =>
      simp [hb, hd] at h
      exact Or.inr (Or.inr ⟨x, h.symm⟩)
    | ok r => simp [hb, hd] at h

/-! ## C1: lookup by name -/

/-- C1: when the listing request is answered with status 200 and the body
decodes to the list `L`, `GetMonitorByName` returns without error the result of
the scan of `L`; it returns a monitor `m` exactly when `m` sits in `L` behind a
run of elements none of which has the queried name and `m.Name` is the queried
name (the first match in listing order); it returns absent exactly when no
element of `L` has that name, in particular for the empty list. -/
theorem GetMonitorByName_first_match (w : World) (c : APIClient) (name : String)
    (resp : Response) (L : List Monitor)
    (hreq : doRequest w c "GET" "/status/api/monitors" none = .ok resp)
    (hstatus : resp.StatusCode = 200)
    (hdec : decodeMonitors w resp.Body = .ok L) :
    GetMonitorByName w c name = .ok (findByName name L) ∧
    (∀ m, GetMonitorByName w c name = .ok (some m) ↔
      ∃ pre post, L = pre ++ m :: post ∧ m.Name = name ∧ ∀ x ∈ pre, x.Name ≠ name) ∧
    (GetMonitorByName w c name = .ok none ↔ ∀ x ∈ L, x.Name ≠ name) ∧
    (L = [] → GetMonitorByName w c name = .ok none) := by
  have h : GetMonitorByName w c name = .ok (findByName name L) := by
    simp [GetMonitorByName, hreq, hstatus, hdec]
  refine ⟨h, ?_, ?_, ?_⟩
  · intro m
    rw [h]
    simp only [Except.ok.injEq]
    exact findByName_eq_some name L m
  · rw [h]
    simp only [Except.ok.injEq]
    exact findByName_eq_none name L
  · intro hL
    rw [h, hL]
    rfl

/-- C1 at a listing of three monitors, two named `svc-b`: the query `svc-b`
returns the one with ID 2, the first of the two. -/
theorem GetMonitorByName_first_match_witness :
    decodeMonitors (constWorld 200 "[]" listing) "[]"
        = .ok [mon 1 "svc-a", mon 2 "svc-b", mon 3 "svc-b"] ∧
    GetMonitorByName (constWorld 200 "[]" listing) localClient "svc-b"
        = .ok (some (mon 2 "svc-b")) ∧
    GetMonitorByName (constWorld 200 "[]" listing) localClient "svc-c" = .ok none :=
  ⟨rfl,
   (GetMonitorByName_first_match (constWorld 200 "[]" listing) localClient "svc-b"
      ⟨200, "[]"⟩ [mon 1 "svc-a", mon 2 "svc-b", mon 3 "svc-b"] rfl rfl rfl).1,
   (GetMonitorByName_first_match (constWorld 200 "[]" listing) localClient "svc-c"
      ⟨200, "[]"⟩ [mon 1 "svc-a", mon 2 "svc-b", mon 3 "svc-b"] rfl rfl rfl).1⟩

/-! ## C2: absent means 404 -/

/-- C2: for every ID, `GetMonitor` returns absent (nil monitor, nil error)
exactly when the request was transmitted and the response has status 404,
whatever the body; so a 404 never yields an error and no other status yields
absent. -/
theorem GetMonitor_absent_iff_404 (w : World) (c : APIClient) (id : Int) :
    GetMonitor w c id = .ok none ↔
      ∃ resp, doRequest w c "GET" ("/status/api/monitors/" ++ Itoa id) none = .ok resp ∧
        resp.StatusCode = 404 := by
  unfold GetMonitor
  cases hreq : doRequest w c "GET" ("/status/api/monitors/" ++ Itoa id) none with
  | error e => simp
  | ok resp =>
    by_cases h404 : resp.StatusCode = 404
    · simp [h404]
    · by_cases h200 : resp.StatusCode = 200
      · cases hdec : decodeMonitor w resp.Body with
        | error e => simp [h404, h200, hdec]
        | ok m => simp [h404, h200, hdec]
      · simp [h404, h200]

/-- C2 at a server answering 404 with a body that is no JSON at all: ID 7 is absent. -/
theorem GetMonitor_absent_iff_404_witness :
    GetMonitor (constWorld 404 "<html>not found</html>" .null) localClient 7 = .ok none :=
  (GetMonitor_absent_iff_404 (constWorld 404 "<html>not found</html>" .null) localClient 7).mpr
    ⟨⟨404, "<html>not found</html>"⟩, rfl, rfl⟩

/-! ## C3: undocumented status codes are server errors -/

/-- C3: for each of the five client operations, a transmitted response whose
status is not the documented success status (201 for create, 200 for get, list
and update, 204 for delete), and is not 404 on get, makes the operation return
an error; the message is the operation's fixed text followed by the raw body
and the decimal status code, so it contains both. Conversely create succeeds
only on 201 and delete only on 204. -/
theorem client_error_on_undocumented_status (w : World) (c : APIClient) (resp : Response) :
    (∀ monitor,
      doRequest w c "POST" "/status/api/monitors" (some (.create monitor)) = .ok resp →
      resp.StatusCode ≠ 201 →
      CreateMonitor w c monitor = .error ("failed to create monitor: " ++ resp.Body
          ++ " (status " ++ Itoa resp.StatusCode ++ ")") ∧
      ∃ msg, CreateMonitor w c monitor = .error msg ∧
        Contains msg resp.Body ∧ Contains msg (Itoa resp.StatusCode)) ∧
    (∀ id,
      doRequest w c "GET" ("/status/api/monitors/" ++ Itoa id) none = .ok resp →
      resp.StatusCode ≠ 200 → resp.StatusCode ≠ 404 →
      GetMonitor w c id = .error ("failed to get monitor: " ++ resp.Body
          ++ " (status " ++ Itoa resp.StatusCode ++ ")") ∧
      ∃ msg, GetMonitor w c id = .error msg ∧
        Contains msg resp.Body ∧ Contains msg (Itoa resp.StatusCode)) ∧
    (∀ name,
      doRequest w c "GET" "/status/api/monitors" none = .ok resp →
      resp.StatusCode ≠ 200 →
      GetMonitorByName w c name = .error ("failed to list monitors: " ++ resp.Body
          ++ " (status " ++ Itoa resp.StatusCode ++ ")") ∧
      ∃ msg, GetMonitorByName w c name = .error msg ∧
        Contains msg resp.Body ∧ Contains msg (Itoa resp.StatusCode)) ∧
    (∀ id monitor,
      doRequest w c "PUT" ("/status/api/monitors/" ++ Itoa id) (some (.update monitor))
        = .ok resp →
      resp.StatusCode ≠ 200 →
      UpdateMonitor w c id monitor = .error ("failed to update monitor: " ++ resp.Body
          ++ " (status " ++ Itoa resp.StatusCode ++ ")") ∧
      ∃ msg, UpdateMonitor w c id monitor = .error msg ∧
        Contains msg resp.Body ∧ Contains msg (Itoa resp.StatusCode)) ∧
    (∀ id,
      doRequest w c "DELETE" ("/status/api/monitors/" ++ Itoa id) none = .ok resp →
      resp.StatusCode ≠ 204 →
      DeleteMonitor w c id = .error ("failed to delete monitor: " ++ resp.Body
          ++ " (status " ++ Itoa resp.StatusCode ++ ")") ∧
      ∃ msg, DeleteMonitor w c id = .error msg ∧
        Contains msg resp.Body ∧ Contains msg (Itoa resp.StatusCode)) ∧
    (∀ monitor m, CreateMonitor w c monitor = .ok m →
      ∃ r, doRequest w c "POST" "/status/api/monitors" (some (.create monitor)) = .ok r ∧
        r.StatusCode = 201) ∧
    (∀ id, DeleteMonitor w c id = .ok () →
      ∃ r, doRequest w c "DELETE" ("/status/api/monitors/" ++ Itoa id) none = .ok r ∧
        r.StatusCode = 204) := by
  refine ⟨?_, ?_, ?_, ?_, ?_, ?_, ?_⟩
  · intro monitor hreq hs
    have h : CreateMonitor w c monitor = .error ("failed to create monitor: " ++ resp.Body
        ++ " (status " ++ Itoa resp.StatusCode ++ ")") := by
      simp [CreateMonitor, hreq, hs]
    exact ⟨h, _, h, contains_server_error _ _ _⟩
  · intro id hreq hs h404
    have h : GetMonitor w c id = .error ("failed to get monitor: " ++ resp.Body
        ++ " (status " ++ Itoa resp.StatusCode ++ ")") := by
      simp [GetMonitor, hreq, hs, h404]
    exact ⟨h, _, h, contains_server_error _ _ _⟩
  · intro name hreq hs
    have h : GetMonitorByName w c name = .error ("failed to list monitors: " ++ resp.Body
        ++ " (status " ++ Itoa resp.StatusCode ++ ")") := by
      simp [GetMonitorByName, hreq, hs]
    exact ⟨h, _, h, contains_server_error _ _ _⟩
  · intro id monitor hreq hs
    have h : UpdateMonitor w c id monitor = .error ("failed to update monitor: " ++ resp.Body
        ++ " (status " ++ Itoa resp.StatusCode ++ ")") := by
      simp [UpdateMonitor, hreq, hs]
    exact ⟨h, _, h, contains_server_error _ _ _⟩
  · intro id hreq hs
    have h : DeleteMonitor w c id = .error ("failed to delete monitor: " ++ resp.Body
        ++ " (status " ++ Itoa resp.StatusCode ++ ")") := by
      simp [DeleteMonitor, hreq, hs]
    exact ⟨h, _, h, contains_server_error _ _ _⟩
  · intro monitor m h
    unfold CreateMonitor at h
    cases hreq : doRequest w c "POST" "/status/api/monitors" (some (.create monitor)) with
    | error e => simp [hreq] at h
    | ok r =>
      by_cases hs : r.StatusCode = 201
      · exact ⟨r, rfl, hs⟩
      · simp [hreq, hs] at h
  · intro id h
    unfold DeleteMonitor at h
    cases hreq : doRequest w c "DELETE" ("/status/api/monitors/" ++ Itoa id) none with
    | error e => simp [hreq] at h
    | ok r =>
      by_cases hs : r.StatusCode = 204
      · exact ⟨r, rfl, hs⟩
      · simp [hreq, hs] at h

/-- C3 at a server that answers 200 with the body `busy`: create reports the
body and the code 200, and delete does the same though 200 is a 2xx status. -/
theorem client_error_on_undocumented_status_witness :
    CreateMonitor (constWorld 200 "busy" .null) localClient sampleCreate
        = .error "failed to create monitor: busy (status 200)" ∧
    DeleteMonitor (constWorld 200 "busy" .null) localClient 7
        = .error "failed to delete monitor: busy (status 200)" :=
  ⟨((client_error_on_undocumented_status (constWorld 200 "busy" .null) localClient
      ⟨200, "busy"⟩).1 sampleCreate rfl (by decide)).1,
   ((client_error_on_undocumented_status (constWorld 200 "busy" .null) localClient
      ⟨200, "busy"⟩).2.2.2.2.1 7 rfl (by decide)).1⟩

/-! ## C4: transport errors -/

/-- C4: for each of the five client operations, when `doRequest` fails with
the error `e` (the body could not be serialised, the request could not be
built, or the network call failed) the operation returns exactly `e`, hence
neither absent nor success; and `e` differs from every server error message of
that operation, whatever body and status code that message carries. -/
theorem transport_error_propagates (w : World) (c : APIClient) (e : String) :
    (∀ monitor,
      doRequest w c "POST" "/status/api/monitors" (some (.create monitor)) = .error e →
      CreateMonitor w c monitor = .error e ∧
      ∀ body status,
        e ≠ "failed to create monitor: " ++ body ++ " (status " ++ Itoa status ++ ")") ∧
    (∀ id,
      doRequest w c "GET" ("/status/api/monitors/" ++ Itoa id) none = .error e →
      GetMonitor w c id = .error e ∧
      ∀ body status,
        e ≠ "failed to get monitor: " ++ body ++ " (status " ++ Itoa status ++ ")") ∧
    (∀ name,
      doRequest w c "GET" "/status/api/monitors" none = .error e →
      GetMonitorByName w c name = .error e ∧
      ∀ body status,
        e ≠ "failed to list monitors: " ++ body ++ " (status " ++ Itoa status ++ ")") ∧
    (∀ id monitor,
      doRequest w c "PUT" ("/status/api/monitors/" ++ Itoa id) (some (.update monitor))
        = .error e →
      UpdateMonitor w c id monitor = .error e ∧
      ∀ body status,
        e ≠ "failed to update monitor: " ++ body ++ " (status " ++ Itoa status ++ ")") ∧
    (∀ id,
      doRequest w c "DELETE" ("/status/api/monitors/" ++ Itoa id) none = .error e →
      DeleteMonitor w c id = .error e ∧
      ∀ body status,
        e ≠ "failed to delete monitor: " ++ body ++ " (status " ++ Itoa status ++ ")") := by
  refine ⟨?_, ?_, ?_, ?_, ?_⟩
  · intro monitor hreq
    refine ⟨by simp [CreateMonitor, hreq], ?_⟩
    intro body status
    simp only [String.append_assoc]
    rcases doRequest_error_form _ _ _ _ _ _ hreq with ⟨x, rfl⟩ | ⟨x, rfl⟩ | ⟨x, rfl⟩
    · exact append_ne_of_char _ _ _ _ 10 (by decide) (by decide) (by decide)
    · exact append_ne_of_char _ _ _ _ 17 (by decide) (by decide) (by decide)
    · exact append_ne_of_char _ _ _ _ 0 (by decide) (by decide) (by decide)
  · intro id hreq
    refine ⟨by simp [GetMonitor, hreq], ?_⟩
    intro body status
    simp only [String.append_assoc]
    rcases doRequest_error_form _ _ _ _ _ _ hreq with ⟨x, rfl⟩ | ⟨x, rfl⟩ | ⟨x, rfl⟩
    · exact append_ne_of_char _ _ _ _ 10 (by decide) (by decide) (by decide)
    · exact append_ne_of_char _ _ _ _ 10 (by decide) (by decide) (by decide)
    · exact append_ne_of_char _ _ _ _ 0 (by decide) (by decide) (by decide)
  · intro name hreq
    refine ⟨by simp [GetMonitorByName, hreq], ?_⟩
    intro body status
    simp only [String.append_assoc]
    rcases doRequest_error_form _ _ _ _ _ _ hreq with ⟨x, rfl⟩ | ⟨x, rfl⟩ | ⟨x, rfl⟩
    · exact append_ne_of_char _ _ _ _ 10 (by decide) (by decide) (by decide)
    · exact append_ne_of_char _ _ _ _ 10 (by decide) (by decide) (by decide)
    · exact append_ne_of_char _ _ _ _ 0 (by decide) (by decide) (by decide)
  · intro id monitor hreq
    refine ⟨by simp [UpdateMonitor, hreq], ?_⟩
    intro body status
    simp only [String.append_assoc]
    rcases doRequest_error_form _ _ _ _ _ _ hreq with ⟨x, rfl⟩ | ⟨x, rfl⟩ | ⟨x, rfl⟩
    · exact append_ne_of_char _ _ _ _ 10 (by decide) (by decide) (by decide)
    · exact append_ne_of_char _ _ _ _ 10 (by decide) (by decide) (by decide)
    · exact append_ne_of_char _ _ _ _ 0 (by decide) (by decide) (by decide)
  · intro id hreq
    refine ⟨by simp [DeleteMonitor, hreq], ?_⟩
    intro body status
    simp only [String.append_assoc]
    rcases doRequest_error_form _ _ _ _ _ _ hreq with ⟨x, rfl⟩ | ⟨x, rfl⟩ | ⟨x, rfl⟩
    · exact append_ne_of_char _ _ _ _ 10 (by decide) (by decide) (by decide)
    · exact append_ne_of_char _ _ _ _ 10 (by decide) (by decide) (by decide)
    · exact append_ne_of_char _ _ _ _ 0 (by decide) (by decide) (by decide)

/-- C4 with the network down: get by ID and get by name return the transport
error, not absent, and delete does not succeed. -/
theorem transport_error_propagates_witness :
    GetMonitor downWorld localClient 7
        = .error "request failed: dial tcp: connection refused" ∧
    GetMonitorByName downWorld localClient "svc-a"
        = .error "request failed: dial tcp: connection refused" ∧
    DeleteMonitor downWorld localClient 7
        = .error "request failed: dial tcp: connection refused" :=
  ⟨((transport_error_propagates downWorld localClient
      "request failed: dial tcp: connection refused").2.1 7 rfl).1,
   ((transport_error_propagates downWorld localClient
      "request failed: dial tcp: connection refused").2.2.1 "svc-a" rfl).1,
   ((transport_error_propagates downWorld localClient
      "request failed: dial tcp: connection refused").2.2.2.2 7 rfl).1⟩

/-! ## Lemmas on decoding and on the controller -/

theorem HasError_append_single (ds : List Diagnostic) (d : Diagnostic) :
    HasError (ds ++ [d]) = (HasError ds || (d.Severity == .Error)) := by
  simp [HasError]

theorem HasError_of_mem (ds : List Diagnostic) (d : Diagnostic) (h : d ∈ ds)
    (he : d.Severity = .Error) : HasError ds = true := by
  simp only [HasError, List.any_eq_true]
  exact ⟨d, h, by simp [he]⟩

theorem HasError_Append (ds new : List Diagnostic) :
    HasError (Append ds new) = (HasError ds || HasError new) := by
  induction new generalizing ds with
  | nil => simp [Append, HasError]
  | cons d rest ih =>
    have hstep : Append ds (d :: rest) = Append (if d ∈ ds then ds else ds ++ [d]) rest := rfl
    rw [hstep, ih]
    by_cases hm : d ∈ ds
    · rw [if_pos hm]
      cases hsev : d.Severity with
      | Error =>
        rw [HasError_of_mem ds d hm hsev]
        rfl
      | Warning =>
        have hw : (Severity.Warning == Severity.Error) = false := rfl
        simp [HasError, hsev, hw]
    · rw [if_neg hm, HasError_append_single]
      simp [HasError, Bool.or_assoc]

theorem HasError_Append_nil (new : List Diagnostic) :
    HasError (Append [] new) = HasError new := by
  rw [HasError_Append]
  rfl

theorem HasError_AddError (ds : List Diagnostic) (s d : String) :
    HasError (AddError ds s d) = true := by
  unfold AddError
  rw [HasError_Append]
  simp [HasError]

theorem mem_AddError (ds : List Diagnostic) (s d : String) :
    ({ Severity := .Error, Summary := s, Detail := d } : Diagnostic) ∈ AddError ds s d := by
  unfold AddError Append
  simp only [List.foldl]
  split
  · assumption
  · simp

theorem Create_of_ok (w : World) (c : APIClient) (plan : Source) (m : Monitor)
    (hdiag : HasError plan.Diags = false)
    (hcall : CreateMonitor w c (buildCreateRequest plan.Data) = .ok m) :
    MonitorResource.Create w c plan =
      { Diagnostics := Append [] plan.Diags, State := .set (recordOf m),
        Calls := [.CreateMonitor (buildCreateRequest plan.Data)] } := by
  have hdiag' : HasError (Append [] plan.Diags) = false :=
    (HasError_Append_nil plan.Diags).trans hdiag
  obtain ⟨mi, mn, mdn, md, mu, mt, mci, mto, mia, mmd, mca, mua⟩ := m
  simp only [MonitorResource.Create, hdiag', hcall]
  cases md <;> cases mu <;> rfl

theorem Read_of_some (w : World) (c : APIClient) (state : Source) (id : Int) (m : Monitor)
    (hdiag : HasError state.Diags = false)
    (hid : Atoi state.Data.Id.ValueString = .ok id)
    (hcall : GetMonitor w c id = .ok (some m)) :
    MonitorResource.Read w c state =
      { Diagnostics := Append [] state.Diags, State := .set (recordOf m), Calls := [.GetMonitor id] } := by
  have hdiag' : HasError (Append [] state.Diags) = false :=
    (HasError_Append_nil state.Diags).trans hdiag
  obtain ⟨mi, mn, mdn, md, mu, mt, mci, mto, mia, mmd, mca, mua⟩ := m
  simp only [MonitorResource.Read, hdiag', hid, hcall]
  cases md <;> cases mu <;> rfl

theorem Update_of_ok (w : World) (c : APIClient) (plan : Source) (id : Int) (m : Monitor)
    (hdiag : HasError plan.Diags = false)
    (hid : Atoi plan.Data.Id.ValueString = .ok id)
    (hcall : UpdateMonitor w c id (buildUpdateRequest plan.Data) = .ok m) :
    MonitorResource.Update w c plan =
      { Diagnostics := Append [] plan.Diags, State := .set (recordOf m),
        Calls := [.UpdateMonitor id (buildUpdateRequest plan.Data)] } := by
  have hdiag' : HasError (Append [] plan.Diags) = false :=
    (HasError_Append_nil plan.Diags).trans hdiag
  obtain ⟨mi, mn, mdn, md, mu, mt, mci, mto, mia, mmd, mca, mua⟩ := m
  simp only [MonitorResource.Update, hdiag', hid, hcall]
  cases md <;> cases mu <;> rfl

/-! ## C5: the optional fields survive a create -/

/-- C6 fails as stated: the stored record of monitor 7 has a parseable ID and a
null description; `Update` sends the request built from it, and in that request
`Description` is nil, so the eight attribute fields are not all non-nil. -/
theorem update_omits_null_description :
    Atoi sampleState.Data.Id.ValueString = .ok 7 ∧
    (MonitorResource.Update (constWorld 200 "" fetchedDoc) localClient sampleState).Calls
      = [.UpdateMonitor 7 (buildUpdateRequest sampleState.Data)] ∧
    (buildUpdateRequest sampleState.Data).Description = none ∧
    ¬ ((buildUpdateRequest sampleState.Data).Name ≠ none ∧
       (buildUpdateRequest sampleState.Data).DisplayName ≠ none ∧
       (buildUpdateRequest sampleState.Data).Description ≠ none ∧
       (buildUpdateRequest sampleState.Data).URL ≠ none ∧
       (buildUpdateRequest sampleState.Data).MonitorType ≠ none ∧
       (buildUpdateRequest sampleState.Data).CheckInterval ≠ none ∧
       (buildUpdateRequest sampleState.Data).Timeout ≠ none ∧
       (buildUpdateRequest sampleState.Data).IsActive ≠ none) :=
  ⟨rfl, rfl, rfl, fun h => h.2.2.1 rfl⟩

/-- C6 as amended: for a record with a parseable ID, `Update` issues exactly
one client call, `UpdateMonitor` with the request built from the record; in
that request name, display_name, monitor_type, check_interval, timeout and
is_active are always non-nil and carry the record's values, while description
and url are nil when the record's field is null and carry its value otherwise. -/
theorem update_request_fields (w : World) (c : APIClient) (plan : Source) (id : Int)
    (hdiag : HasError plan.Diags = false)
    (hid : Atoi plan.Data.Id.ValueString = .ok id) :
    (MonitorResource.Update w c plan).Calls
      = [.UpdateMonitor id (buildUpdateRequest plan.Data)] ∧
    (buildUpdateRequest plan.Data).Name = some plan.Data.Name.ValueString ∧
    (buildUpdateRequest plan.Data).DisplayName = some plan.Data.DisplayName.ValueString ∧
    (buildUpdateRequest plan.Data).MonitorType = some plan.Data.MonitorType.ValueString ∧
    (buildUpdateRequest plan.Data).CheckInterval = some plan.Data.CheckInterval.ValueInt64 ∧
    (buildUpdateRequest plan.Data).Timeout = some plan.Data.Timeout.ValueInt64 ∧
    (buildUpdateRequest plan.Data).IsActive = some plan.Data.IsActive.ValueBool ∧
    ((buildUpdateRequest plan.Data).Description =
      if plan.Data.Description = .null then none
      else some plan.Data.Description.ValueString) ∧
    ((buildUpdateRequest plan.Data).URL =
      if plan.Data.Url = .null then none else some plan.Data.Url.ValueString) := by
  have hdiag' : HasError (Append [] plan.Diags) = false :=
    (HasError_Append_nil plan.Diags).trans hdiag
  refine ⟨?_, ?_⟩
  · unfold MonitorResource.Update
    simp only [hdiag', hid]
    cases UpdateMonitor w c id (buildUpdateRequest plan.Data) <;> rfl
  · obtain ⟨diags, data⟩ := plan
    obtain ⟨i, n, dn, d, u, mt, ci, tmo, ia⟩ := data
    cases d <;> cases u <;> simp [buildUpdateRequest, TFValue.IsNull, UpdateMonitorRequest.zero]


/-- C6 as amended, at the stored record of monitor 7: name is sent, the null
description is left out, the empty url is sent as the empty string. -/
theorem update_request_fields_witness :
    (MonitorResource.Update (constWorld 200 "" fetchedDoc) localClient sampleState).Calls
      = [.UpdateMonitor 7 (buildUpdateRequest sampleState.Data)] ∧
    (buildUpdateRequest sampleState.Data).Name = some "svc-a" ∧
    (buildUpdateRequest sampleState.Data).Description = none ∧
    (buildUpdateRequest sampleState.Data).URL = some "" :=
  have h := update_request_fields (constWorld 200 "" fetchedDoc) localClient sampleState 7 rfl rfl
  ⟨h.1, h.2.1, h.2.2.2.2.2.2.2.1, h.2.2.2.2.2.2.2.2⟩

/-! ## C7: a monitor deleted out of band -/

/-- C7: for a prior state whose ID parses to `id`, when `GetMonitor` returns
absent, `Read` removes the resource from state, leaves the diagnostics as they
were (so without an error), and does not write a state record. -/
theorem Read_absent_removes_resource (w : World) (c : APIClient) (state : Source) (id : Int)
    (hdiag : HasError state.Diags = false)
    (hid : Atoi state.Data.Id.ValueString = .ok id)
    (habsent : GetMonitor w c id = .ok none) :
    MonitorResource.Read w c state =
      { Diagnostics := Append [] state.Diags, State := .removed, Calls := [.GetMonitor id] } ∧
    HasError (MonitorResource.Read w c state).Diagnostics = false ∧
    ∀ data, (MonitorResource.Read w c state).State ≠ .set data := by
  have hdiag' : HasError (Append [] state.Diags) = false :=
    (HasError_Append_nil state.Diags).trans hdiag
  have h : MonitorResource.Read w c state =
      { Diagnostics := Append [] state.Diags, State := .removed, Calls := [.GetMonitor id] } := by
    simp only [MonitorResource.Read, hdiag', hid, habsent]
    rfl
  refine ⟨h, ?_, ?_⟩
  · rw [h]
    exact hdiag'
  · intro data e
    rw [h] at e
    exact StateOp.noConfusion e

/-- C7 at a server answering 404 for monitor 7. -/
theorem Read_absent_removes_resource_witness :
    MonitorResource.Read (constWorld 404 "gone" .null) localClient sampleState =
      { Diagnostics := [], State := .removed, Calls := [.GetMonitor 7] } :=
  (Read_absent_removes_resource (constWorld 404 "gone" .null) localClient sampleState 7
    rfl rfl rfl).1

/-! ## C8: read overwrites every field -/

/-- C8: when `GetMonitor` returns the monitor `m`, `Read` writes the state
record whose nine fields are id, name, display_name, description, url,
monitor_type, check_interval, timeout and is_active of `m` (a nil description
or url written as null); any other prior state for which the same `m` is
fetched gets the same record written, so no prior value survives. -/
theorem Read_overwrites_every_field (w : World) (c : APIClient) (state : Source) (id : Int)
    (m : Monitor)
    (hdiag : HasError state.Diags = false)
    (hid : Atoi state.Data.Id.ValueString = .ok id)
    (hget : GetMonitor w c id = .ok (some m)) :
    (MonitorResource.Read w c state).State = .set
      { Id := .value (Itoa m.ID), Name := .value m.Name, DisplayName := .value m.DisplayName,
        Description := (match m.Description with | some d => .value d | none => .null),
        Url := (match m.URL with | some u => .value u | none => .null),
        MonitorType := .value m.MonitorType, CheckInterval := .value m.CheckInterval,
        Timeout := .value m.Timeout, IsActive := .value m.IsActive } ∧
    ∀ (state2 : Source) (id2 : Int), HasError state2.Diags = false →
      Atoi state2.Data.Id.ValueString = .ok id2 → GetMonitor w c id2 = .ok (some m) →
      (MonitorResource.Read w c state2).State = (MonitorResource.Read w c state).State := by
  constructor
  · rw [Read_of_some w c state id m hdiag hid hget]
    cases hd : m.Description <;> cases hu : m.URL <;> simp [recordOf, optString, hd, hu]
  · intro state2 id2 hdiag2 hid2 hget2
    rw [Read_of_some w c state id m hdiag hid hget,
      Read_of_some w c state2 id2 m hdiag2 hid2 hget2]

/-- C8 at monitor 7 edited out of band: display name, description, url, type,
interval, timeout and active flag of the stored record are all replaced. -/
theorem Read_overwrites_every_field_witness :
    (MonitorResource.Read (constWorld 200 "" fetchedDoc) localClient sampleState).State = .set
      { Id := .value "7", Name := .value "svc-a", DisplayName := .value "Renamed",
        Description := .value "", Url := .null, MonitorType := .value "tcp",
        CheckInterval := .value 15, Timeout := .value 5, IsActive := .value false } :=
  (Read_overwrites_every_field (constWorld 200 "" fetchedDoc) localClient sampleState 7 fetched
    rfl rfl rfl).1


/-! ## C9: nothing is written on failure -/

/-- C9: for `Create`, `Read` and `Update` on a record read without error, if
the client call returns an error the operation appends one error diagnostic
carrying it and leaves the state untouched; and whenever one of them writes a
state record, its client call succeeded with a monitor `m` and the record
written is the one with all nine fields taken from `m`. -/
theorem controller_atomic_on_failure (w : World) (c : APIClient) (src : Source)
    (hdiag : HasError src.Diags = false) :
    (∀ e, CreateMonitor w c (buildCreateRequest src.Data) = .error e →
      MonitorResource.Create w c src =
        { Diagnostics := AddError (Append [] src.Diags) "Error Creating Monitor"
            ("Could not create monitor, unexpected error: " ++ e)
          State := .untouched
          Calls := [.CreateMonitor (buildCreateRequest src.Data)] } ∧
      HasError (MonitorResource.Create w c src).Diagnostics = true) ∧
    (∀ id e, Atoi src.Data.Id.ValueString = .ok id → GetMonitor w c id = .error e →
      MonitorResource.Read w c src =
        { Diagnostics := AddError (Append [] src.Diags) "Error Reading Monitor"
            ("Could not read monitor ID " ++ src.Data.Id.ValueString ++ ": " ++ e)
          State := .untouched
          Calls := [.GetMonitor id] } ∧
      HasError (MonitorResource.Read w c src).Diagnostics = true) ∧
    (∀ id e, Atoi src.Data.Id.ValueString = .ok id →
      UpdateMonitor w c id (buildUpdateRequest src.Data) = .error e →
      MonitorResource.Update w c src =
        { Diagnostics := AddError (Append [] src.Diags) "Error Updating Monitor"
            ("Could not update monitor ID " ++ src.Data.Id.ValueString ++ ": " ++ e)
          State := .untouched
          Calls := [.UpdateMonitor id (buildUpdateRequest src.Data)] } ∧
      HasError (MonitorResource.Update w c src).Diagnostics = true) ∧
    (∀ data, (MonitorResource.Create w c src).State = .set data →
      ∃ m, CreateMonitor w c (buildCreateRequest src.Data) = .ok m ∧ data = recordOf m) ∧
    (∀ data, (MonitorResource.Read w c src).State = .set data →
      ∃ id m, Atoi src.Data.Id.ValueString = .ok id ∧ GetMonitor w c id = .ok (some m) ∧
        data = recordOf m) ∧
    (∀ data, (MonitorResource.Update w c src).State = .set data →
      ∃ id m, Atoi src.Data.Id.ValueString = .ok id ∧
        UpdateMonitor w c id (buildUpdateRequest src.Data) = .ok m ∧ data = recordOf m) := by
  have hdiag' : HasError (Append [] src.Diags) = false :=
    (HasError_Append_nil src.Diags).trans hdiag
  refine ⟨?_, ?_, ?_, ?_, ?_, ?_⟩
  · intro e he
    constructor
    · simp only [MonitorResource.Create, hdiag', he]
      rfl
    · simp only [MonitorResource.Create, hdiag', he]
      exact HasError_AddError _ _ _
  · intro id e hid he
    constructor
    · simp only [MonitorResource.Read, hdiag', hid, he]
      rfl
    · simp only [MonitorResource.Read, hdiag', hid, he]
      exact HasError_AddError _ _ _
  · intro id e hid he
    constructor
    · simp only [MonitorResource.Update, hdiag', hid, he]
      rfl
    · simp only [MonitorResource.Update, hdiag', hid, he]
      exact HasError_AddError _ _ _
  · intro data hset
    cases hcall : CreateMonitor w c (buildCreateRequest src.Data) with
    | error e =>
      simp only [MonitorResource.Create, hdiag', hcall] at hset
      exact absurd hset (by simp)
    | ok m =>
      rw [Create_of_ok w c src m hdiag hcall] at hset
      exact ⟨m, rfl, (StateOp.set.inj hset).symm⟩
  · intro data hset
    cases hid : Atoi src.Data.Id.ValueString with
    | error err =>
      simp only [MonitorResource.Read, hdiag', hid] at hset
      exact absurd hset (by simp)
    | ok id =>
      cases hcall : GetMonitor w c id with
      | error e =>
        simp only [MonitorResource.Read, hdiag', hid, hcall] at hset
        exact absurd hset (by simp)
      | ok r =>
        cases r with
        | none =>
          simp only [MonitorResource.Read, hdiag', hid, hcall] at hset
          exact absurd hset (by simp)
        | some m =>
          rw [Read_of_some w c src id m hdiag hid hcall] at hset
          exact ⟨id, m, rfl, hcall, (StateOp.set.inj hset).symm⟩
  · intro data hset
    cases hid : Atoi src.Data.Id.ValueString with
    | error err =>
      simp only [MonitorResource.Update, hdiag', hid] at hset
      exact absurd hset (by simp)
    | ok id =>
      cases hcall : UpdateMonitor w c id (buildUpdateRequest src.Data) with
      | error e =>
        simp only [MonitorResource.Update, hdiag', hid, hcall] at hset
        exact absurd hset (by simp)
      | ok m =>
        rw [Update_of_ok w c src id m hdiag hid hcall] at hset
        exact ⟨id, m, rfl, hcall, (StateOp.set.inj hset).symm⟩

/-- C9 at a create answered with 500, a read with the network down, and an
update answered with 404: the state is untouched each time. -/
theorem controller_atomic_on_failure_witness :
    (MonitorResource.Create (constWorld 500 "boom" .null) localClient samplePlan).State
      = .untouched ∧
    (MonitorResource.Read downWorld localClient sampleState).State = .untouched ∧
    (MonitorResource.Update (constWorld 404 "gone" .null) localClient sampleState)
      = { Diagnostics :=
            [{ Severity := .Error,
               Summary := "Error Updating Monitor",
               Detail :=
                 "Could not update monitor ID 7: failed to update monitor: gone (status 404)" }],
          State := .untouched,
          Calls := [.UpdateMonitor 7 (buildUpdateRequest sampleState.Data)] } :=
  ⟨congrArg Outcome.State
     ((controller_atomic_on_failure (constWorld 500 "boom" .null) localClient samplePlan rfl).1
       "failed to create monitor: boom (status 500)" rfl).1,
   congrArg Outcome.State
     ((controller_atomic_on_failure downWorld localClient sampleState rfl).2.1 7
       "request failed: dial tcp: connection refused" rfl rfl).1,
   ((controller_atomic_on_failure (constWorld 404 "gone" .null) localClient sampleState rfl).2.2.1
     7 "failed to update monitor: gone (status 404)" rfl rfl).1⟩

/-! ## C10: an ID that is no number -/

/-- C10: for `Read`, `Update` and `Delete` on a record read without error, if
`strconv.Atoi` rejects the ID string the operation appends the error
diagnostic `Invalid Monitor ID` (it is a member of the resulting diagnostics),
issues no client call, and neither writes nor removes state; that summary differs from the summaries `Error Reading Monitor`,
`Error Updating Monitor` and `Error Deleting Monitor` used for remote errors. -/
theorem invalid_id_is_local_error (w : World) (c : APIClient) (src : Source) (err : NumError)
    (hdiag : HasError src.Diags = false)
    (hid : Atoi src.Data.Id.ValueString = .error err) :
    MonitorResource.Read w c src =
      { Diagnostics := AddError (Append [] src.Diags) "Invalid Monitor ID"
          ("Could not parse monitor ID: " ++ err.Error w)
        State := .untouched, Calls := [] } ∧
    MonitorResource.Update w c src =
      { Diagnostics := AddError (Append [] src.Diags) "Invalid Monitor ID"
          ("Could not parse monitor ID: " ++ err.Error w)
        State := .untouched, Calls := [] } ∧
    MonitorResource.Delete w c src =
      { Diagnostics := AddError (Append [] src.Diags) "Invalid Monitor ID"
          ("Could not parse monitor ID: " ++ err.Error w)
        State := .untouched, Calls := [] } ∧
    ({ Severity := .Error, Summary := "Invalid Monitor ID",
       Detail := "Could not parse monitor ID: " ++ err.Error w } : Diagnostic)
      ∈ AddError (Append [] src.Diags) "Invalid Monitor ID"
          ("Could not parse monitor ID: " ++ err.Error w) ∧
    "Invalid Monitor ID" ≠ "Error Reading Monitor" ∧
    "Invalid Monitor ID" ≠ "Error Updating Monitor" ∧
    "Invalid Monitor ID" ≠ "Error Deleting Monitor" := by
  have hdiag' : HasError (Append [] src.Diags) = false :=
    (HasError_Append_nil src.Diags).trans hdiag
  refine ⟨?_, ?_, ?_, mem_AddError _ _ _, by decide, by decide, by decide⟩
  · simp only [MonitorResource.Read, hdiag', hid]
    rfl
  · simp only [MonitorResource.Update, hdiag', hid]
    rfl
  · simp only [MonitorResource.Delete, hdiag', hid]
    rfl

/-- C10 at a stored record whose ID is the word `seven`. -/
theorem invalid_id_is_local_error_witness :
    MonitorResource.Delete (constWorld 204 "" .null) localClient brokenState =
      { Diagnostics :=
          [{ Severity := .Error,
             Summary := "Invalid Monitor ID",
             Detail :=
               "Could not parse monitor ID: strconv.Atoi: parsing \"seven\": invalid syntax" }],
        State := .untouched, Calls := [] } :=
  (invalid_id_is_local_error (constWorld 204 "" .null) localClient brokenState
    ⟨"seven", .ErrSyntax⟩ rfl rfl).2.2.1

/-! ## C11: request headers -/

theorem buildRequest_Header (w : World) (c : APIClient) (method path : String)
    (body : Option Body) (req : Request)
    (h : buildRequest w c method path body = .ok req) :
    req.Header =
      if c.APIKey = "" then [("Content-Type", "application/json")]
      else [("Content-Type", "application/json"), ("Authorization", "Bearer " ++ c.APIKey)] := by
  unfold buildRequest at h
  cases hn : w.NewRequestErr method (c.Endpoint ++ path) with
  | some x =>
    cases body with
    | none => simp [hn] at h
    | some b =>
      cases hr : w.Render b.toJSON with
      | error y => simp [hr] at h
      | ok t => simp [hn, hr] at h
  | none =>
    have key : ∀ bodyReader : Option String,
        (Except.ok (if (c.APIKey != "") = true then
            ({ Method := method, URL := c.Endpoint ++ path,
               Header := Header.Set (Header.Set [] "Content-Type" "application/json")
                 "Authorization" ("Bearer " ++ c.APIKey),
               Body := bodyReader } : Request)
          else
            { Method := method, URL := c.Endpoint ++ path,
              Header := Header.Set [] "Content-Type" "application/json",
              Body := bodyReader }) : Except String Request) = .ok req →
        req.Header =
          if c.APIKey = "" then [("Content-Type", "application/json")]
          else [("Content-Type", "application/json"),
                ("Authorization", "Bearer " ++ c.APIKey)] := by
      intro bodyReader hb
      have hb2 := Except.ok.inj hb
      by_cases hk : c.APIKey = ""
      · simp [hk] at hb2
        rw [← hb2]
        simp [hk, Header.Set]
      · simp [hk] at hb2
        rw [← hb2]
        simp only [hk, if_false, Header.Set]
        rfl
    cases body with
    | none =>
      simp only [hn] at h
      exact key none h
    | some b =>
      cases hr : w.Render b.toJSON with
      | error y => simp [hr] at h
      | ok t =>
        simp only [hn, hr] at h
        exact key (some t) h


/-- C11: every request `doRequest` builds, whatever the method, path and body,
has exactly `application/json` under `Content-Type`; it has something under
`Authorization` if and only if the configured API key is not empty, and then
exactly the text `Bearer ` followed by the key; and that request is the one
`doRequest` hands to the HTTP client. -/
theorem doRequest_headers (w : World) (c : APIClient) (method path : String)
    (body : Option Body) (req : Request)
    (hbuild : buildRequest w c method path body = .ok req) :
    Header.Values req.Header "Content-Type" = ["application/json"] ∧
    (Header.Values req.Header "Authorization" ≠ [] ↔ c.APIKey ≠ "") ∧
    (c.APIKey ≠ "" → Header.Values req.Header "Authorization" = ["Bearer " ++ c.APIKey]) ∧
    doRequest w c method path body =
      (match w.Do req with
       | .error err => .error ("request failed: " ++ err)
       | .ok resp => .ok resp) := by
  have hh := buildRequest_Header w c method path body req hbuild
  have hdo : doRequest w c method path body =
      (match w.Do req with
       | .error err => .error ("request failed: " ++ err)
       | .ok resp => .ok resp) := by
    simp only [doRequest, hbuild]
  by_cases hk : c.APIKey = ""
  · rw [if_pos hk] at hh
    rw [hh]
    refine ⟨rfl, ?_, fun h => absurd hk h, hdo⟩
    constructor
    · intro h
      exact absurd rfl h
    · intro h
      exact absurd hk h
  · rw [if_neg hk] at hh
    rw [hh]
    refine ⟨rfl, ?_, fun _ => rfl, hdo⟩
    constructor
    · intro _
      exact hk
    · intro _ h
      exact List.noConfusion h

/-- C11 at a client with the key `s3cret` and at a client without a key. -/
theorem doRequest_headers_witness :
    buildRequest (constWorld 200 "" .null) keyedClient "GET" "/status/api/monitors" none
      = .ok { Method := "GET", URL := "http://localhost:8000/status/api/monitors",
              Header := [("Content-Type", "application/json"),
                         ("Authorization", "Bearer s3cret")],
              Body := none } ∧
    Header.Values [("Content-Type", "application/json"), ("Authorization", "Bearer s3cret")]
      "Authorization" = ["Bearer s3cret"] ∧
    buildRequest (constWorld 200 "" .null) localClient "DELETE" "/status/api/monitors/7" none
      = .ok { Method := "DELETE", URL := "http://localhost:8000/status/api/monitors/7",
              Header := [("Content-Type", "application/json")], Body := none } ∧
    ¬ Header.Values [("Content-Type", "application/json")] "Authorization" ≠ [] :=
  ⟨rfl,
   (doRequest_headers (constWorld 200 "" .null) keyedClient "GET" "/status/api/monitors" none
      _ rfl).2.2.1 (by decide),
   rfl,
   fun h => ((doRequest_headers (constWorld 200 "" .null) localClient "DELETE"
      "/status/api/monitors/7" none _ rfl).2.1.mp h) rfl⟩

/-! ## C12: the mapping from monitor to record, written four times -/

theorem ofNat_digit (d : Nat) (h : d < 10) : Char.ofNat (48 + d) = Nat.digitChar d := by
  interval_cases d <;> rfl

theorem fmtIntegerLoop_eq (fuel : Nat) : ∀ (u : Nat) (buf : List Char), u < fuel →
    fmtIntegerLoop fuel u buf = Nat.toDigitsCore 10 fuel u buf := by
  induction fuel with
  | zero => intro u buf h; exact absurd h (Nat.not_lt_zero u)
  | succ fuel ih =>
    intro u buf h
    unfold fmtIntegerLoop Nat.toDigitsCore
    by_cases hu : u ≥ 10
    · have hne : u / 10 ≠ 0 := by omega
      have hlt : u / 10 < fuel := by omega
      have hd : u - u / 10 * 10 = u % 10 := by omega
      simp only [hu, if_true, hne, if_false, hd]
      rw [ofNat_digit _ (Nat.mod_lt u (by decide)), ih _ _ hlt]
    · have hz : u / 10 = 0 := by omega
      have hm : u % 10 = u := by omega
      simp only [hu, if_false, hz, if_true, hm]
      rw [ofNat_digit u (by omega)]

theorem SprintfD_eq_Itoa (n : Int) : SprintfD n = Itoa n := by
  unfold SprintfD Itoa
  simp only [fmtIntegerLoop_eq (n.natAbs + 1) n.natAbs [] (Nat.lt_succ_self _)]
  by_cases hn : n < 0
  · simp only [hn, if_true]
    apply String.ext
    simp [Nat.repr, Nat.toDigits, List.asString]
  · simp only [hn, if_false]
    rfl


theorem DataSource_Read_of_some (w : World) (c : APIClient) (config : ConfigSource) (m : Monitor)
    (hdiag : HasError config.Diags = false)
    (hcall : GetMonitorByName w c config.Data.Name.ValueString = .ok (some m)) :
    MonitorDataSource.Read w c config =
      { Diagnostics := Append [] config.Diags,
        State := some
          { Id := .value (SprintfD m.ID), Name := .value m.Name,
            DisplayName := .value m.DisplayName, Description := optString m.Description,
            Url := optString m.URL, MonitorType := .value m.MonitorType,
            CheckInterval := .value m.CheckInterval, Timeout := .value m.Timeout,
            IsActive := .value m.IsActive },
        Lookups := [config.Data.Name.ValueString] } := by
  have hdiag' : HasError (Append [] config.Diags) = false :=
    (HasError_Append_nil config.Diags).trans hdiag
  obtain ⟨mi, mn, mdn, md, mu, mt, mci, mto, mia, mmd, mca, mua⟩ := m
  simp only [MonitorDataSource.Read, hdiag', hcall]
  cases md <;> cases mu <;> rfl

/-- C12: whenever resource `Create`, `Read`, `Update` and data source `Read`
each obtain the same monitor `m` from the client, the three resource
operations write one and the same record and the data source writes a record
with the same nine field values: the ID string is the same although the
resource renders it with `strconv.Itoa` and the data source with `%d`, a nil
description or url is null in all four, and every other field is the value
held by `m`. -/
theorem mapping_written_four_times (w1 w2 w3 w4 : World) (c : APIClient)
    (plan state uplan : Source) (config : ConfigSource) (id2 id3 : Int) (m : Monitor)
    (hd1 : HasError plan.Diags = false)
    (h1 : CreateMonitor w1 c (buildCreateRequest plan.Data) = .ok m)
    (hd2 : HasError state.Diags = false)
    (hi2 : Atoi state.Data.Id.ValueString = .ok id2)
    (h2 : GetMonitor w2 c id2 = .ok (some m))
    (hd3 : HasError uplan.Diags = false)
    (hi3 : Atoi uplan.Data.Id.ValueString = .ok id3)
    (h3 : UpdateMonitor w3 c id3 (buildUpdateRequest uplan.Data) = .ok m)
    (hd4 : HasError config.Diags = false)
    (h4 : GetMonitorByName w4 c config.Data.Name.ValueString = .ok (some m)) :
    ∃ (r : MonitorResourceModel) (d : MonitorDataSourceModel),
      (MonitorResource.Create w1 c plan).State = .set r ∧
      (MonitorResource.Read w2 c state).State = .set r ∧
      (MonitorResource.Update w3 c uplan).State = .set r ∧
      (MonitorDataSource.Read w4 c config).State = some d ∧
      d.Id = r.Id ∧ d.Name = r.Name ∧ d.DisplayName = r.DisplayName ∧
      d.Description = r.Description ∧ d.Url = r.Url ∧ d.MonitorType = r.MonitorType ∧
      d.CheckInterval = r.CheckInterval ∧ d.Timeout = r.Timeout ∧ d.IsActive = r.IsActive ∧
      r.Id = .value (Itoa m.ID) ∧ d.Id = .value (SprintfD m.ID) ∧
      r.Name = .value m.Name ∧ r.DisplayName = .value m.DisplayName ∧
      r.MonitorType = .value m.MonitorType ∧ r.CheckInterval = .value m.CheckInterval ∧
      r.Timeout = .value m.Timeout ∧ r.IsActive = .value m.IsActive ∧
      (r.Description = match m.Description with | some s => .value s | none => .null) ∧
      (r.Url = match m.URL with | some s => .value s | none => .null) := by
  refine ⟨recordOf m,
    { Id := .value (SprintfD m.ID), Name := .value m.Name,
      DisplayName := .value m.DisplayName, Description := optString m.Description,
      Url := optString m.URL, MonitorType := .value m.MonitorType,
      CheckInterval := .value m.CheckInterval, Timeout := .value m.Timeout,
      IsActive := .value m.IsActive }, ?_, ?_, ?_, ?_, ?_⟩
  · rw [Create_of_ok w1 c plan m hd1 h1]
  · rw [Read_of_some w2 c state id2 m hd2 hi2 h2]
  · rw [Update_of_ok w3 c uplan id3 m hd3 hi3 h3]
  · rw [DataSource_Read_of_some w4 c config m hd4 h4]
  · simp only [recordOf, SprintfD_eq_Itoa]
    cases m.Description <;> cases m.URL <;> simp [optString]

/-- C12 at monitor 7 with an empty description and no url, obtained by all four
operations. -/
theorem mapping_written_four_times_witness :
    ∃ (r : MonitorResourceModel) (d : MonitorDataSourceModel),
      (MonitorResource.Create (constWorld 201 "" fetchedDoc) localClient samplePlan).State
        = .set r ∧
      (MonitorResource.Read (constWorld 200 "" fetchedDoc) localClient sampleState).State
        = .set r ∧
      (MonitorResource.Update (constWorld 200 "" fetchedDoc) localClient sampleState).State
        = .set r ∧
      (MonitorDataSource.Read (constWorld 200 "" (.arr [fetchedDoc])) localClient
        sampleConfigA).State = some d ∧
      d.Id = .value "7" ∧ r.Id = .value "7" ∧ d.Url = .null ∧ r.Url = .null ∧
      d.Description = .value "" ∧ r.Description = .value "" :=
  let ⟨r, d, h1, h2, h3, h4, _, _, _, e4, e5, _, _, _, _, hr, hd, _, _, _, _, _, _, hdesc, hurl⟩ :=
    mapping_written_four_times (constWorld 201 "" fetchedDoc) (constWorld 200 "" fetchedDoc)
      (constWorld 200 "" fetchedDoc) (constWorld 200 "" (.arr [fetchedDoc])) localClient
      samplePlan sampleState sampleState sampleConfigA 7 7 fetched rfl rfl rfl rfl rfl rfl rfl rfl
      rfl rfl
  ⟨r, d, h1, h2, h3, h4, hd, hr, e5.trans hurl, hurl, e4.trans hdesc, hdesc⟩


/-! ## C13: the ID survives the state record -/

theorem toDigitsCore_append (fuel : Nat) : ∀ (n : Nat) (ds : List Char),
    Nat.toDigitsCore 10 fuel n ds = Nat.toDigitsCore 10 fuel n [] ++ ds := by
  induction fuel with
  | zero => intro n ds; rfl
  | succ fuel ih =>
    intro n ds
    unfold Nat.toDigitsCore
    by_cases hz : n / 10 = 0
    · simp only [hz, if_true]
      rfl
    · simp only [hz, if_false]
      rw [ih (n / 10) (Nat.digitChar (n % 10) :: ds), ih (n / 10) [Nat.digitChar (n % 10)]]
      simp

theorem parseUintLoop_append (xs ys : List Char) : ∀ acc : Nat,
    parseUintLoop (xs ++ ys) acc =
      match parseUintLoop xs acc with
      | .ok v => parseUintLoop ys v
      | .error e => .error e := by
  induction xs with
  | nil => intro acc; rfl
  | cons c cs ih =>
    intro acc
    simp only [List.cons_append, parseUintLoop]
    split
    · rfl
    · split
      · rfl
      · split
        · rfl
        · exact ih _

theorem digitChar_toNat (d : Nat) (h : d < 10) : (Nat.digitChar d).toNat = 48 + d := by
  interval_cases d <;> rfl

theorem parseUintLoop_digit (v d : Nat) (hd : d < 10) (hv : v * 10 + d < 2 ^ 64) :
    parseUintLoop [Nat.digitChar d] v = .ok (v * 10 + d) := by
  have h1 : ¬ ((Nat.digitChar d).toNat < 48 ∨ 57 < (Nat.digitChar d).toNat) := by
    rw [digitChar_toNat d hd]; omega
  have h2 : ¬ (v ≥ (2 ^ 64 - 1) / 10 + 1) := by omega
  have h3 : ¬ (v * 10 + ((Nat.digitChar d).toNat - 48) > 2 ^ 64 - 1) := by
    rw [digitChar_toNat d hd]; omega
  have h4 : v * 10 + ((Nat.digitChar d).toNat - 48) = v * 10 + d := by
    rw [digitChar_toNat d hd]; omega
  have h5 : ¬ (v * 10 + d > 2 ^ 64 - 1) := by omega
  simp only [parseUintLoop, h1, h2, if_false, h4, h5]

theorem parse_toDigitsCore (fuel : Nat) : ∀ n : Nat, n < fuel → n < 2 ^ 64 →
    parseUintLoop (Nat.toDigitsCore 10 fuel n []) 0 = .ok n ∧
    Nat.toDigitsCore 10 fuel n [] ≠ [] := by
  induction fuel with
  | zero => intro n h; exact absurd h (Nat.not_lt_zero n)
  | succ fuel ih =>
    intro n hlt hn
    unfold Nat.toDigitsCore
    by_cases hz : n / 10 = 0
    · have hm : n % 10 = n := by omega
      simp only [hz, if_true, hm]
      refine ⟨?_, by simp⟩
      have := parseUintLoop_digit 0 n (by omega) (by omega)
      simpa using this
    · simp only [hz, if_false]
      rw [toDigitsCore_append]
      obtain ⟨ih1, _⟩ := ih (n / 10) (by omega) (by omega)
      refine ⟨?_, by simp⟩
      rw [parseUintLoop_append, ih1]
      simp only
      rw [parseUintLoop_digit (n / 10) (n % 10) (Nat.mod_lt n (by decide)) (by omega)]
      congr 1
      omega

theorem parseUint_repr (k : Nat) (hk : k < 2 ^ 64) :
    parseUint (Nat.repr k).toList = .ok k ∧
    ∃ c rest, (Nat.repr k).toList = c :: rest ∧ c ≠ '+' ∧ c ≠ '-' := by
  have hl : (Nat.repr k).toList = Nat.toDigitsCore 10 (k + 1) k [] := rfl
  obtain ⟨hp, hne⟩ := parse_toDigitsCore (k + 1) k (Nat.lt_succ_self k) hk
  rw [hl]
  cases hds : Nat.toDigitsCore 10 (k + 1) k [] with
  | nil => exact absurd hds hne
  | cons c rest =>
    rw [hds] at hp
    refine ⟨hp, c, rest, rfl, ?_, ?_⟩
    · intro hc
      subst hc
      simp [parseUintLoop] at hp
    · intro hc
      subst hc
      simp [parseUintLoop] at hp

theorem Atoi_Itoa (n : Int) (h : IsGoInt n) : Atoi (Itoa n) = .ok n := by
  obtain ⟨hlo, hhi⟩ := h
  unfold Itoa
  by_cases hn : n < 0
  · simp only [hn, if_true]
    have hk : n.natAbs < 2 ^ 64 := by omega
    obtain ⟨hp, c, rest, hcr, _, _⟩ := parseUint_repr n.natAbs hk
    have hl : ("-" ++ Nat.repr n.natAbs).toList = '-' :: (Nat.repr n.natAbs).toList := by
      simp [String.toList, String.data_append]
    have hp2 : parseUint (Nat.repr n.natAbs).data = .ok n.natAbs := hp
    have h2 : ¬ (9223372036854775808 < n.natAbs) := by omega
    unfold Atoi
    rw [hl]
    simp [hp2, h2]
    rw [abs_of_neg hn]
    omega
  · simp only [hn, if_false]
    have hk : n.natAbs < 2 ^ 64 := by omega
    obtain ⟨hp, c, rest, hcr, hplus, hminus⟩ := parseUint_repr n.natAbs hk
    unfold Atoi
    rw [hcr] at hp ⊢
    have h1 : ¬ (9223372036854775808 ≤ n.natAbs) := by omega
    simp [hplus, hminus, hp, h1]
    omega


theorem mem_Append (ds new : List Diagnostic) (d : Diagnostic) (h : d ∈ Append ds new) :
    d ∈ ds ∨ d ∈ new := by
  induction new generalizing ds with
  | nil => exact Or.inl h
  | cons x rest ih =>
    have hstep : Append ds (x :: rest) = Append (if x ∈ ds then ds else ds ++ [x]) rest := rfl
    rw [hstep] at h
    rcases ih _ h with h1 | h1
    · by_cases hx : x ∈ ds
      · rw [if_pos hx] at h1
        exact Or.inl h1
      · rw [if_neg hx] at h1
        rcases List.mem_append.mp h1 with h2 | h2
        · exact Or.inl h2
        · rw [List.mem_singleton] at h2
          exact Or.inr (h2 ▸ List.mem_cons_self x rest)
    · exact Or.inr (List.mem_cons_of_mem x h1)

theorem not_mem_of_no_error (ds : List Diagnostic) (h : HasError ds = false)
    (d : Diagnostic) (hs : d.Severity = .Error) : d ∉ ds := by
  intro hm
  rw [HasError_of_mem ds d hm hs] at h
  exact Bool.noConfusion h

theorem not_mem_AddError (ds : List Diagnostic) (h : HasError ds = false)
    (s t s2 t2 : String) (hne : s2 ≠ s) :
    ({ Severity := .Error, Summary := s2, Detail := t2 } : Diagnostic) ∉ AddError ds s t := by
  intro hm
  rcases mem_Append _ _ _ hm with h1 | h1
  · exact not_mem_of_no_error ds h _ rfl h1
  · rw [List.mem_singleton] at h1
    exact hne (congrArg Diagnostic.Summary h1)

/-- C13: for every Go `int` `n`, zero and negative values included, the
decimal text `strconv.Itoa` gives is parsed back by `strconv.Atoi` to `n`
itself. So for a record whose ID is that text (the ID `Create`, `Read` and
`Update` write for a monitor with ID `n`), the diagnostics of `Read`, `Update`
and `Delete` hold no `Invalid Monitor ID` error, and what each of them returns
is decided by the client call for `n` itself: by `GetMonitor` of `n` for `Read`
(its error reported, absent removing the resource, a monitor written to state),
by `UpdateMonitor` of `n` with the request built from the record for `Update`,
and by `DeleteMonitor` of `n` for `Delete` (its error reported, its success
leaving diagnostics and state as they were). -/
theorem id_round_trip (w : World) (c : APIClient) (src : Source) (n : Int)
    (hn : IsGoInt n)
    (hid : src.Data.Id = .value (Itoa n))
    (hdiag : HasError src.Diags = false) :
    Atoi (Itoa n) = .ok n ∧
    Atoi src.Data.Id.ValueString = .ok n ∧
    (MonitorResource.Read w c src).Calls = [.GetMonitor n] ∧
    (MonitorResource.Update w c src).Calls = [.UpdateMonitor n (buildUpdateRequest src.Data)] ∧
    (MonitorResource.Delete w c src).Calls = [.DeleteMonitor n] ∧
    (∀ detail, ({ Severity := .Error, Summary := "Invalid Monitor ID", Detail := detail }
        : Diagnostic) ∉ (MonitorResource.Read w c src).Diagnostics) ∧
    (∀ detail, ({ Severity := .Error, Summary := "Invalid Monitor ID", Detail := detail }
        : Diagnostic) ∉ (MonitorResource.Update w c src).Diagnostics) ∧
    (∀ detail, ({ Severity := .Error, Summary := "Invalid Monitor ID", Detail := detail }
        : Diagnostic) ∉ (MonitorResource.Delete w c src).Diagnostics) ∧
    (∀ e, GetMonitor w c n = .error e →
      MonitorResource.Read w c src =
        { Diagnostics := AddError (Append [] src.Diags) "Error Reading Monitor"
            ("Could not read monitor ID " ++ Itoa n ++ ": " ++ e),
          State := .untouched,
          Calls := [.GetMonitor n] }) ∧
    (GetMonitor w c n = .ok none →
      MonitorResource.Read w c src =
        { Diagnostics := Append [] src.Diags, State := .removed, Calls := [.GetMonitor n] }) ∧
    (∀ m, GetMonitor w c n = .ok (some m) →
      MonitorResource.Read w c src =
        { Diagnostics := Append [] src.Diags, State := .set (recordOf m),
          Calls := [.GetMonitor n] }) ∧
    (∀ e, UpdateMonitor w c n (buildUpdateRequest src.Data) = .error e →
      MonitorResource.Update w c src =
        { Diagnostics := AddError (Append [] src.Diags) "Error Updating Monitor"
            ("Could not update monitor ID " ++ Itoa n ++ ": " ++ e),
          State := .untouched,
          Calls := [.UpdateMonitor n (buildUpdateRequest src.Data)] }) ∧
    (∀ m, UpdateMonitor w c n (buildUpdateRequest src.Data) = .ok m →
      MonitorResource.Update w c src =
        { Diagnostics := Append [] src.Diags, State := .set (recordOf m),
          Calls := [.UpdateMonitor n (buildUpdateRequest src.Data)] }) ∧
    (∀ e, DeleteMonitor w c n = .error e →
      MonitorResource.Delete w c src =
        { Diagnostics := AddError (Append [] src.Diags) "Error Deleting Monitor"
            ("Could not delete monitor ID " ++ Itoa n ++ ": " ++ e),
          State := .untouched,
          Calls := [.DeleteMonitor n] }) ∧
    (DeleteMonitor w c n = .ok () →
      MonitorResource.Delete w c src =
        { Diagnostics := Append [] src.Diags, State := .untouched,
          Calls := [.DeleteMonitor n] }) := by
  have hdiag' : HasError (Append [] src.Diags) = false :=
    (HasError_Append_nil src.Diags).trans hdiag
  have hround := Atoi_Itoa n hn
  have hatoi : Atoi src.Data.Id.ValueString = .ok n := by
    rw [hid]
    exact hround
  have hval : src.Data.Id.ValueString = Itoa n := by
    rw [hid]
    rfl
  have hclean : ∀ detail : String,
      (Diagnostic.mk .Error "Invalid Monitor ID" detail) ∉ Append [] src.Diags :=
    fun detail => not_mem_of_no_error _ hdiag' _ rfl
  refine ⟨hround, hatoi, ?_, ?_, ?_, ?_, ?_, ?_, ?_, ?_, ?_, ?_, ?_, ?_, ?_⟩
  · simp only [MonitorResource.Read, hdiag', hatoi]
    cases hget : GetMonitor w c n with
    | error e => rfl
    | ok r => cases r <;> rfl
  · simp only [MonitorResource.Update, hdiag', hatoi]
    cases UpdateMonitor w c n (buildUpdateRequest src.Data) <;> rfl
  · simp only [MonitorResource.Delete, hdiag', hatoi]
    cases DeleteMonitor w c n <;> rfl
  · intro detail
    simp only [MonitorResource.Read, hdiag', hatoi]
    cases hget : GetMonitor w c n with
    | error e => exact not_mem_AddError _ hdiag' _ _ _ _ (by decide)
    | ok r =>
      cases r with
      | none => exact hclean detail
      | some m => exact hclean detail
  · intro detail
    simp only [MonitorResource.Update, hdiag', hatoi]
    cases UpdateMonitor w c n (buildUpdateRequest src.Data) with
    | error e => exact not_mem_AddError _ hdiag' _ _ _ _ (by decide)
    | ok m => exact hclean detail
  · intro detail
    simp only [MonitorResource.Delete, hdiag', hatoi]
    cases DeleteMonitor w c n with
    | error e => exact not_mem_AddError _ hdiag' _ _ _ _ (by decide)
    | ok u => exact hclean detail
  · intro e he
    rw [← hval]
    simp only [MonitorResource.Read, hdiag', hatoi, he]
    rfl
  · intro he
    simp only [MonitorResource.Read, hdiag', hatoi, he]
    rfl
  · intro m he
    exact Read_of_some w c src n m hdiag hatoi he
  · intro e he
    rw [← hval]
    simp only [MonitorResource.Update, hdiag', hatoi, he]
    rfl
  · intro m he
    exact Update_of_ok w c src n m hdiag hatoi he
  · intro e he
    rw [← hval]
    simp only [MonitorResource.Delete, hdiag', hatoi, he]
    rfl
  · intro he
    simp only [MonitorResource.Delete, hdiag', hatoi, he]
    rfl

/-- C13 at the negative ID -42: the text written for it parses back to -42,
and `Delete` on the record written for that monitor reports the answer the
server gives for monitor -42. -/
theorem id_round_trip_witness :
    Atoi (Itoa (-42)) = .ok (-42) ∧
    (MonitorResource.Delete (constWorld 204 "" .null) localClient
      { Diags := [], Data := recordOf (mon (-42) "svc-n") }).Calls = [.DeleteMonitor (-42)] ∧
    MonitorResource.Delete (constWorld 404 "gone" .null) localClient
      { Diags := [], Data := recordOf (mon (-42) "svc-n") } =
      { Diagnostics :=
          [{ Severity := .Error,
             Summary := "Error Deleting Monitor",
             Detail :=
               "Could not delete monitor ID -42: failed to delete monitor: gone (status 404)" }],
        State := .untouched,
        Calls := [.DeleteMonitor (-42)] } :=
  have h := id_round_trip (constWorld 204 "" .null) localClient
    { Diags := [], Data := recordOf (mon (-42) "svc-n") } (-42)
    ⟨by decide, by decide⟩ rfl rfl
  have h2 := id_round_trip (constWorld 404 "gone" .null) localClient
    { Diags := [], Data := recordOf (mon (-42) "svc-n") } (-42)
    ⟨by decide, by decide⟩ rfl rfl
  ⟨h.1, h.2.2.2.2.1,
   h2.2.2.2.2.2.2.2.2.2.2.2.2.2.1 "failed to delete monitor: gone (status 404)" rfl⟩


/-! ## C14: the data source treats absence as failure -/

theorem GetMonitorByName_some_name (w : World) (c : APIClient) (name : String) (m : Monitor)
    (h : GetMonitorByName w c name = .ok (some m)) : m.Name = name := by
  unfold GetMonitorByName at h
  cases hreq : doRequest w c "GET" "/status/api/monitors" none with
  | error e => simp [hreq] at h
  | ok resp =>
    by_cases hs : resp.StatusCode = 200
    · cases hdec : decodeMonitors w resp.Body with
      | error e => simp [hreq, hs, hdec] at h
      | ok L =>
        simp [hreq, hs, hdec] at h
        obtain ⟨pre, post, _, hm, _⟩ := (findByName_eq_some name L m).mp h
        exact hm
    · simp [hreq, hs] at h

theorem GetMonitorByName_none_of_listing (w : World) (c : APIClient) (name : String)
    (resp : Response) (L : List Monitor)
    (hreq : doRequest w c "GET" "/status/api/monitors" none = .ok resp)
    (hstatus : resp.StatusCode = 200)
    (hdec : decodeMonitors w resp.Body = .ok L)
    (hnone : ∀ x ∈ L, x.Name ≠ name) :
    GetMonitorByName w c name = .ok none := by
  simp [GetMonitorByName, hreq, hstatus, hdec, (findByName_eq_none name L).mpr hnone]

theorem DataSource_Read_of_none (w : World) (c : APIClient) (config : ConfigSource)
    (hdiag : HasError config.Diags = false)
    (hcall : GetMonitorByName w c config.Data.Name.ValueString = .ok none) :
    MonitorDataSource.Read w c config =
      { Diagnostics := AddError (Append [] config.Diags) "Monitor Not Found"
          ("No monitor found with name: " ++ config.Data.Name.ValueString),
        State := none,
        Lookups := [config.Data.Name.ValueString] } := by
  have hdiag' : HasError (Append [] config.Diags) = false :=
    (HasError_Append_nil config.Diags).trans hdiag
  simp only [MonitorDataSource.Read, hdiag', hcall]
  rfl

/-- C14: for a configuration read without error, when `GetMonitorByName`
returns absent the data source appends the error diagnostic `Monitor Not Found`
and does not call `State.Set`; this is so in particular whenever the listing
holds no monitor of the queried name, the empty listing included; and whenever
the data source does write a record, a monitor was found, it bears the queried
name, and the name written is the queried name. -/
theorem DataSource_absent_is_failure (w : World) (c : APIClient) (config : ConfigSource)
    (hdiag : HasError config.Diags = false) :
    (GetMonitorByName w c config.Data.Name.ValueString = .ok none →
      MonitorDataSource.Read w c config =
        { Diagnostics := AddError (Append [] config.Diags) "Monitor Not Found"
            ("No monitor found with name: " ++ config.Data.Name.ValueString),
          State := none,
          Lookups := [config.Data.Name.ValueString] } ∧
      HasError (MonitorDataSource.Read w c config).Diagnostics = true ∧
      (Diagnostic.mk .Error "Monitor Not Found"
          ("No monitor found with name: " ++ config.Data.Name.ValueString))
        ∈ (MonitorDataSource.Read w c config).Diagnostics) ∧
    (∀ resp L, doRequest w c "GET" "/status/api/monitors" none = .ok resp →
      resp.StatusCode = 200 → decodeMonitors w resp.Body = .ok L →
      (∀ x ∈ L, x.Name ≠ config.Data.Name.ValueString) →
      (MonitorDataSource.Read w c config).State = none ∧
      (Diagnostic.mk .Error "Monitor Not Found"
          ("No monitor found with name: " ++ config.Data.Name.ValueString))
        ∈ (MonitorDataSource.Read w c config).Diagnostics) ∧
    (∀ d, (MonitorDataSource.Read w c config).State = some d →
      ∃ m, GetMonitorByName w c config.Data.Name.ValueString = .ok (some m) ∧
        m.Name = config.Data.Name.ValueString ∧
        d.Name = .value config.Data.Name.ValueString) := by
  have hdiag' : HasError (Append [] config.Diags) = false :=
    (HasError_Append_nil config.Diags).trans hdiag
  have habsent : GetMonitorByName w c config.Data.Name.ValueString = .ok none →
      MonitorDataSource.Read w c config =
        { Diagnostics := AddError (Append [] config.Diags) "Monitor Not Found"
            ("No monitor found with name: " ++ config.Data.Name.ValueString),
          State := none,
          Lookups := [config.Data.Name.ValueString] } :=
    DataSource_Read_of_none w c config hdiag
  refine ⟨?_, ?_, ?_⟩
  · intro hcall
    refine ⟨habsent hcall, ?_, ?_⟩
    · rw [habsent hcall]
      exact HasError_AddError _ _ _
    · rw [habsent hcall]
      exact mem_AddError _ _ _
  · intro resp L hreq hstatus hdec hnone
    have hcall := GetMonitorByName_none_of_listing w c _ resp L hreq hstatus hdec hnone
    rw [habsent hcall]
    exact ⟨rfl, mem_AddError _ _ _⟩
  · intro d hset
    cases hcall : GetMonitorByName w c config.Data.Name.ValueString with
    | error e =>
      simp only [MonitorDataSource.Read, hdiag', hcall] at hset
      exact absurd hset (by simp)
    | ok r =>
      cases r with
      | none =>
        rw [habsent hcall] at hset
        exact absurd hset (by simp)
      | some m =>
        have hname := GetMonitorByName_some_name w c _ m hcall
        rw [DataSource_Read_of_some w c config m hdiag hcall] at hset
        have hd := Option.some.inj hset
        refine ⟨m, rfl, hname, ?_⟩
        rw [← hd, hname]

/-- C14 at an empty listing queried for `svc-b`, and at a listing that holds
`svc-b` twice: the record written bears the queried name. -/
theorem DataSource_absent_is_failure_witness :
    MonitorDataSource.Read (constWorld 200 "[]" (.arr [])) localClient sampleConfig =
      { Diagnostics :=
          [{ Severity := .Error,
             Summary := "Monitor Not Found",
             Detail := "No monitor found with name: svc-b" }],
        State := none,
        Lookups := ["svc-b"] } ∧
    ∃ m, GetMonitorByName (constWorld 200 "[]" listing) localClient "svc-b" = .ok (some m) ∧
      m.Name = "svc-b" :=
  ⟨((DataSource_absent_is_failure (constWorld 200 "[]" (.arr [])) localClient sampleConfig
      rfl).1 rfl).1,
   let ⟨m, h1, h2, _⟩ :=
     (DataSource_absent_is_failure (constWorld 200 "[]" listing) localClient sampleConfig
       rfl).2.2
       { Id := .value "2", Name := .value "svc-b", DisplayName := .value "",
         Description := .null, Url := .null, MonitorType := .value "",
         CheckInterval := .value 0, Timeout := .value 0, IsActive := .value false } rfl
   ⟨m, h1, h2⟩⟩

end StatusMonitor
